import Mathlib

/-!
# PTP hardware clock support of the r8126 driver (`src/r8126_ptp.c`)

A shallow embedding of the clock register protocol, the transmit timestamp
poll step and the timestamping configuration ioctl, followed by the
properties established about them.

Conventions of the embedding

* C integers are `Nat` (unsigned) or `Int` (signed); every place where the C
  code truncates or wraps carries an explicit `% 2 ^ w`.  `long` and
  `unsigned long` are 64 bits wide.
* The device is a register file `regs` indexed by register offset.  A write
  stores the value truncated to the access width, a read returns the stored
  value truncated to the access width.  Reactions of the device itself
  (latching the running clock, write-one-to-clear status bits) are not part
  of the model; instead every write is appended to `trace`, together with the
  calls the driver makes into the network stack.
* Constants that come from the driver headers `r8126.h` / `r8126_ptp.h` are
  fields of `Hdr`; `r8126_hdr` is one concrete choice of them.
-/

namespace R8126

/-! ## Machine integers -/

/-- Two's complement bit pattern of a signed value in a 64-bit word. -/
def u64 (x : Int) : Nat := (x % 2 ^ 64).toNat

/-- Two's complement bit pattern of a signed value in a 32-bit word. -/
def u32 (x : Int) : Nat := (x % 2 ^ 32).toNat

/-- Signed reading of a 64-bit word (`(s64)x`, `(long)x`). -/
def s64 (n : Nat) : Int :=
  if n % 2 ^ 64 < 2 ^ 63 then ((n % 2 ^ 64 : Nat) : Int) else ((n % 2 ^ 64 : Nat) : Int) - 2 ^ 64

/-- Signed reading of a 32-bit word (`(s32)x`, `(int)x`). -/
def s32 (n : Nat) : Int :=
  if n % 2 ^ 32 < 2 ^ 31 then ((n % 2 ^ 32 : Nat) : Int) else ((n % 2 ^ 32 : Nat) : Int) - 2 ^ 32

/-- Modelled from the spec: the macros `BIT_0 .. BIT_31` belong to `r8126.h`,
which is not among the sources; `BIT n` is the single bit `n` their names
give. -/
def BIT (n : Nat) : Nat := 1 <<< n

/-! ## Constants -/

/-- Constants of the driver headers (`r8126.h`, `r8126_ptp.h`) and of the kernel
configuration (`HZ`) that `r8126_ptp.c` refers to by name. -/
structure Hdr where
  PTP_CTRL_8125 : Nat
  PTP_ISR_8125 : Nat
  PTP_TIME_CORRECT_CMD_8125 : Nat
  PTP_SOFT_CONFIG_Time_NS_8125 : Nat
  PTP_SOFT_CONFIG_Time_S_8125 : Nat
  PTP_EGRESS_TIME_BASE_NS_8125 : Nat
  PTP_EGRESS_TIME_BASE_S_8125 : Nat
  PTP_CMD_SET_LOCAL_TIME : Nat
  PTP_CMD_DRIFT_LOCAL_TIME : Nat
  PTP_CMD_LATCHED_LOCAL_TIME : Nat
  PTP_EXEC_CMD : Nat
  PTP_ISR_TOK : Nat
  PTP_ISR_TER : Nat
  PTP_SOFT_CONFIG_TIME_NS_NEGATIVE : Nat
  PTP_SOFT_CONFIG_TIME_S_NEGATIVE : Nat
  PTP_ADJUST_TIME_NS_NEGATIVE : Nat
  HZ : Nat

/-- A concrete instance of the header constants, used to evaluate the model:
the time registers at the offsets the source comments give (`0x6808`,
`0x680C`), the other registers next to them, the command codes in enumeration
order, single-bit flags above the 30-bit and 48-bit fields, and a 1000 Hz
tick. -/
def r8126_hdr : Hdr where
  PTP_CTRL_8125 := 0x6800
  PTP_ISR_8125 := 0x6804
  PTP_TIME_CORRECT_CMD_8125 := 0x6806
  PTP_SOFT_CONFIG_Time_NS_8125 := 0x6808
  PTP_SOFT_CONFIG_Time_S_8125 := 0x680C
  PTP_EGRESS_TIME_BASE_NS_8125 := 0xCF20
  PTP_EGRESS_TIME_BASE_S_8125 := 0xCF24
  PTP_CMD_SET_LOCAL_TIME := 0
  PTP_CMD_DRIFT_LOCAL_TIME := 1
  PTP_CMD_LATCHED_LOCAL_TIME := 2
  PTP_EXEC_CMD := BIT 7
  PTP_ISR_TOK := BIT 1
  PTP_ISR_TER := BIT 2
  PTP_SOFT_CONFIG_TIME_NS_NEGATIVE := BIT 30
  PTP_SOFT_CONFIG_TIME_S_NEGATIVE := BIT 48
  PTP_ADJUST_TIME_NS_NEGATIVE := BIT 30
  HZ := 1000

/-- Linux errno values (`include/uapi/asm-generic/errno-base.h`, `errno.h`). -/
def EFAULT : Int := 14

/-- Linux errno "Invalid argument". -/
def EINVAL : Int := 22

/-- Linux errno "Math result not representable" (out of range). -/
def ERANGE : Int := 34

/-- Linux errno "Operation not supported". -/
def EOPNOTSUPP : Int := 95

/-! ## Data model -/

/-- Kernel `struct timespec64`: `tv_sec` is `time64_t` (s64), `tv_nsec` is `long`. -/
structure timespec64 where
  tv_sec : Int
  tv_nsec : Int
  deriving DecidableEq, Repr

/-- Kernel `struct hwtstamp_config` (three `int` fields). -/
structure hwtstamp_config where
  flags : Int
  tx_type : Int
  rx_filter : Int
  deriving DecidableEq, Repr

/-- What the driver does to the outside world, in program order: register
writes (offset, value as stored) and calls into the network stack, the
latter with the packet pointer they are given (`none` is `NULL`). -/
inductive Event where
  | W8 (reg val : Nat)
  | W16 (reg val : Nat)
  | W32 (reg val : Nat)
  | mac_ocp_write (reg val : Nat)
  | skb_tstamp_tx (skb : Option Nat) (hwtstamp : Int)
  | dev_kfree_skb_any (skb : Option Nat)
  | schedule_work
  deriving DecidableEq, Repr

/-- The fields of `struct rtl8126_private` that `r8126_ptp.c` touches, the
device registers behind `tp`, and the trace of effects.

`ptp_tx_skb` is the pending packet handle (`none` is `NULL`);
`tx_in_progress` is bit `__RTL8126_PTP_TX_IN_PROGRESS` of `tp->state`;
`max_adj` is `tp->ptp_clock_info.max_adj`.  The structure is declared in
`r8126.h`, which is not among the sources: `tx_hwtstamp_timeouts` is taken as
the monotonically increasing counter the spec describes, a natural number that
does not wrap, and `ptp_master_mode` as a truth value. -/
structure rtl8126_private where
  regs : Nat → Nat
  ocp : Nat → Nat
  ptp_tx_skb : Option Nat
  ptp_tx_start : Nat
  tx_in_progress : Bool
  tx_hwtstamp_timeouts : Nat
  hwtstamp_config : hwtstamp_config
  ptp_master_mode : Bool
  max_adj : Int
  trace : List Event

/-! ## Register accessors -/

/-- Modelled from the spec: the accessor macro `RTL_R8(tp, reg)` of `r8126.h`,
an 8-bit read of the register file. -/
def RTL_R8 (tp : rtl8126_private) (reg : Nat) : Nat := tp.regs reg % 2 ^ 8

/-- Modelled from the spec: the accessor macro `RTL_R16(tp, reg)` of
`r8126.h`, a 16-bit read of the register file. -/
def RTL_R16 (tp : rtl8126_private) (reg : Nat) : Nat := tp.regs reg % 2 ^ 16

/-- Modelled from the spec: the accessor macro `RTL_R32(tp, reg)` of
`r8126.h`, a 32-bit read of the register file. -/
def RTL_R32 (tp : rtl8126_private) (reg : Nat) : Nat := tp.regs reg % 2 ^ 32

/-- Modelled from the spec: the accessor macro `RTL_W8(tp, reg, val)` of
`r8126.h`; the value is truncated to 8 bits, stored and traced. -/
def RTL_W8 (tp : rtl8126_private) (reg val : Nat) : rtl8126_private :=
  { tp with
    regs := fun r => if r = reg then val % 2 ^ 8 else tp.regs r
    trace := tp.trace ++ [Event.W8 reg (val % 2 ^ 8)] }

/-- Modelled from the spec: the accessor macro `RTL_W16(tp, reg, val)` of
`r8126.h`; the value is truncated to 16 bits, stored and traced. -/
def RTL_W16 (tp : rtl8126_private) (reg val : Nat) : rtl8126_private :=
  { tp with
    regs := fun r => if r = reg then val % 2 ^ 16 else tp.regs r
    trace := tp.trace ++ [Event.W16 reg (val % 2 ^ 16)] }

/-- Modelled from the spec: the accessor macro `RTL_W32(tp, reg, val)` of
`r8126.h`; the value is truncated to 32 bits, stored and traced. -/
def RTL_W32 (tp : rtl8126_private) (reg val : Nat) : rtl8126_private :=
  { tp with
    regs := fun r => if r = reg then val % 2 ^ 32 else tp.regs r
    trace := tp.trace ++ [Event.W32 reg (val % 2 ^ 32)] }

/-- Modelled from the spec: `rtl8126_mac_ocp_read` is defined outside
`r8126_ptp.c`; the spec describes it as a 16-bit indirect register read. -/
def rtl8126_mac_ocp_read (tp : rtl8126_private) (reg : Nat) : Nat := tp.ocp reg % 2 ^ 16

/-- Modelled from the spec: `rtl8126_mac_ocp_write` is defined outside
`r8126_ptp.c`; the counterpart of the 16-bit indirect read. -/
def rtl8126_mac_ocp_write (tp : rtl8126_private) (reg val : Nat) : rtl8126_private :=
  { tp with
    ocp := fun r => if r = reg then val % 2 ^ 16 else tp.ocp r
    trace := tp.trace ++ [Event.mac_ocp_write reg (val % 2 ^ 16)] }

/-! ## Clock register protocol -/

/-- Source lines 60-76.  Issues the latch command, then reads the 30-bit
nanosecond field and the 16 + 32 bit seconds field.  Returns the C return
value, `*ts64` and the device afterwards. -/
def _rtl8126_phc_gettime (h : Hdr) (tp : rtl8126_private) : Int × timespec64 × rtl8126_private :=
  let tp := RTL_W16 tp h.PTP_TIME_CORRECT_CMD_8125 (h.PTP_CMD_LATCHED_LOCAL_TIME ||| h.PTP_EXEC_CMD)
  let tv_nsec : Nat := RTL_R32 tp h.PTP_SOFT_CONFIG_Time_NS_8125 &&& 0x3fffffff
  let tv_sec : Nat := RTL_R16 tp (h.PTP_SOFT_CONFIG_Time_S_8125 + 4)
  let tv_sec : Nat := (tv_sec <<< 32) % 2 ^ 64
  let tv_sec : Nat := tv_sec ||| RTL_R32 tp h.PTP_SOFT_CONFIG_Time_S_8125
  (0, { tv_sec := s64 tv_sec, tv_nsec := s64 tv_nsec }, tp)

/-- Source lines 78-93.  Writes the nanosecond field masked to 30 bits, the
low 32 bits of the seconds and bits 32..47 of the seconds (the 16-bit write
drops everything above, so the kind of right shift does not matter), then
issues the set-local-time command. -/
def _rtl8126_phc_settime (h : Hdr) (tp : rtl8126_private) (ts64 : timespec64) :
    Int × rtl8126_private :=
  let tp := RTL_W32 tp h.PTP_SOFT_CONFIG_Time_NS_8125 (u64 ts64.tv_nsec &&& 0x3fffffff)
  let tp := RTL_W32 tp h.PTP_SOFT_CONFIG_Time_S_8125 (u64 ts64.tv_sec)
  let tp := RTL_W16 tp (h.PTP_SOFT_CONFIG_Time_S_8125 + 4) (u64 ts64.tv_sec >>> 32)
  let tp := RTL_W16 tp h.PTP_TIME_CORRECT_CMD_8125 (h.PTP_CMD_SET_LOCAL_TIME ||| h.PTP_EXEC_CMD)
  (0, tp)

/-! ## Kernel helpers the driver calls -/

/-- Kernel `NSEC_PER_SEC`. -/
def NSEC_PER_SEC : Int := 1000000000

/-- Kernel `KTIME_MAX`, the largest `ktime_t` (s64 nanoseconds). -/
def KTIME_MAX : Int := 2 ^ 63 - 1

/-- Kernel `KTIME_SEC_MAX`. -/
def KTIME_SEC_MAX : Int := KTIME_MAX / NSEC_PER_SEC

/-- Kernel `ktime_set(secs, nsecs)` (`include/linux/ktime.h`): saturates at
`KTIME_MAX`, otherwise `secs * NSEC_PER_SEC + nsecs` in 64-bit arithmetic. -/
def ktime_set (secs nsecs : Int) : Int :=
  if secs ≥ KTIME_SEC_MAX then KTIME_MAX else s64 (u64 (secs * NSEC_PER_SEC + nsecs))

/-- Kernel `ns_to_timespec64(nsec)` (`kernel/time/time.c`): seconds rounded
towards minus infinity, nanoseconds in `0 .. NSEC_PER_SEC - 1`. -/
def ns_to_timespec64 (nsec : Int) : timespec64 :=
  if nsec > 0 then
    { tv_sec := nsec / NSEC_PER_SEC, tv_nsec := nsec % NSEC_PER_SEC }
  else if nsec < 0 then
    { tv_sec := -((-nsec - 1) / NSEC_PER_SEC) - 1,
      tv_nsec := NSEC_PER_SEC - (-nsec - 1) % NSEC_PER_SEC - 1 }
  else
    { tv_sec := 0, tv_nsec := 0 }

/-- Kernel `time_after(a, b)` (`include/linux/jiffies.h`): `(long)(b - a) < 0`
on `unsigned long` operands. -/
def time_after (a b : Nat) : Bool := decide (s64 (u64 ((b : Int) - (a : Int))) < 0)

/-- Kernel `time_is_before_jiffies(a)`, which is `time_after(jiffies, a)`; the
tick counter `jiffies` is an argument. -/
def time_is_before_jiffies (jiffies a : Nat) : Bool := time_after jiffies a

/-- Kernel `enum hwtstamp_tx_types` (`include/uapi/linux/net_tstamp.h`). -/
def HWTSTAMP_TX_OFF : Int := 0

/-- Kernel `enum hwtstamp_tx_types`. -/
def HWTSTAMP_TX_ON : Int := 1

/-- Kernel `enum hwtstamp_tx_types`. -/
def HWTSTAMP_TX_ONESTEP_SYNC : Int := 2

/-- Kernel `enum hwtstamp_rx_filters` (`include/uapi/linux/net_tstamp.h`). -/
def HWTSTAMP_FILTER_NONE : Int := 0

/-- Kernel `enum hwtstamp_rx_filters`. -/
def HWTSTAMP_FILTER_PTP_V2_L4_EVENT : Int := 6

/-- Kernel `enum hwtstamp_rx_filters`. -/
def HWTSTAMP_FILTER_PTP_V2_L4_SYNC : Int := 7

/-- Kernel `enum hwtstamp_rx_filters`. -/
def HWTSTAMP_FILTER_PTP_V2_L4_DELAY_REQ : Int := 8

/-- Kernel `enum hwtstamp_rx_filters`. -/
def HWTSTAMP_FILTER_PTP_V2_L2_EVENT : Int := 9

/-- Kernel `enum hwtstamp_rx_filters`. -/
def HWTSTAMP_FILTER_PTP_V2_L2_SYNC : Int := 10

/-- Kernel `enum hwtstamp_rx_filters`. -/
def HWTSTAMP_FILTER_PTP_V2_L2_DELAY_REQ : Int := 11

/-- Kernel `enum hwtstamp_rx_filters`. -/
def HWTSTAMP_FILTER_PTP_V2_EVENT : Int := 12

/-- Kernel `enum hwtstamp_rx_filters`. -/
def HWTSTAMP_FILTER_PTP_V2_SYNC : Int := 13

/-- Kernel `enum hwtstamp_rx_filters`. -/
def HWTSTAMP_FILTER_PTP_V2_DELAY_REQ : Int := 14

/-! ## Time and frequency adjustment -/

/-- Source lines 103-126, the `u32 nsec` that `_rtl8126_phc_adjtime` writes to
the nanosecond register.  `-delta` and the negation of `nsec` wrap. -/
def adjtime_nsec (h : Hdr) (delta : Int) : Nat :=
  let negative : Bool := decide (delta < 0)
  let tohw : Nat := if delta < 0 then u64 (-delta) else u64 delta
  let d := ns_to_timespec64 (s64 tohw)
  let nsec : Nat := u32 d.tv_nsec
  let nsec : Nat := if negative then u32 (-(nsec : Int)) else nsec
  let nsec : Nat := nsec &&& 0x3fffffff
  if negative then (nsec ||| h.PTP_SOFT_CONFIG_TIME_NS_NEGATIVE) % 2 ^ 32 else nsec

/-- Source lines 103-126, the `u64 sec` that `_rtl8126_phc_adjtime` hands to
the two seconds register writes. -/
def adjtime_sec (h : Hdr) (delta : Int) : Nat :=
  let negative : Bool := decide (delta < 0)
  let tohw : Nat := if delta < 0 then u64 (-delta) else u64 delta
  let d := ns_to_timespec64 (s64 tohw)
  let sec : Nat := u64 d.tv_sec
  let sec : Nat := if negative then u64 (-(sec : Int)) else sec
  let sec : Nat := sec &&& 0x0000ffffffffffff
  if negative then (sec ||| h.PTP_SOFT_CONFIG_TIME_S_NEGATIVE) % 2 ^ 64 else sec

/-- Source lines 95-142. -/
def _rtl8126_phc_adjtime (h : Hdr) (tp : rtl8126_private) (delta : Int) : Int × rtl8126_private :=
  let nsec := adjtime_nsec h delta
  let sec := adjtime_sec h delta
  let tp := RTL_W32 tp h.PTP_SOFT_CONFIG_Time_NS_8125 nsec
  let tp := RTL_W32 tp h.PTP_SOFT_CONFIG_Time_S_8125 sec
  let tp := RTL_W16 tp (h.PTP_SOFT_CONFIG_Time_S_8125 + 4) (sec >>> 32)
  let tp := RTL_W16 tp h.PTP_TIME_CORRECT_CMD_8125 (h.PTP_CMD_SET_LOCAL_TIME ||| h.PTP_EXEC_CMD)
  (0, tp)

/-- Source lines 172-200; `ppb` is an `s32`, `sub_ns` a `u32`. -/
def _rtl8126_phc_adjfreq (h : Hdr) (tp : rtl8126_private) (ppb : Int) : Int × rtl8126_private :=
  let negative : Bool := decide (ppb < 0)
  let ppb : Int := if ppb < 0 then s32 (u32 (-ppb)) else ppb
  let sub_ns : Nat := u32 (ppb * 9)
  let sub_ns : Nat :=
    if negative then
      ((u32 (-(sub_ns : Int)) &&& 0x3fffffff) ||| h.PTP_ADJUST_TIME_NS_NEGATIVE) % 2 ^ 32
    else
      sub_ns &&& 0x3fffffff
  let tp := RTL_W32 tp h.PTP_SOFT_CONFIG_Time_NS_8125 sub_ns
  let tp := RTL_W16 tp h.PTP_TIME_CORRECT_CMD_8125 (h.PTP_CMD_DRIFT_LOCAL_TIME ||| h.PTP_EXEC_CMD)
  (0, tp)

/-- Source lines 202-214. -/
def rtl8126_phc_adjfreq (h : Hdr) (tp : rtl8126_private) (delta : Int) : Int × rtl8126_private :=
  if delta > tp.max_adj ∨ delta < -tp.max_adj then
    (-EINVAL, tp)
  else
    (0, (_rtl8126_phc_adjfreq h tp delta).2)

/-! ## Transmit timestamp capture -/

/-- Source lines 328-347: two 16-bit indirect reads for the nanoseconds, three
for the seconds, joined by shifts and masked to 30 and 48 bits. -/
def rtl8126_ptp_egresstime (h : Hdr) (tp : rtl8126_private) (regnum : Nat) : Int × timespec64 :=
  let tv_nsec : Nat := rtl8126_mac_ocp_read tp (h.PTP_EGRESS_TIME_BASE_NS_8125 + regnum * 16 + 2)
  let tv_nsec : Nat := (tv_nsec <<< 16) % 2 ^ 64
  let tv_nsec : Nat := tv_nsec ||| rtl8126_mac_ocp_read tp (h.PTP_EGRESS_TIME_BASE_NS_8125 + regnum * 16)
  let tv_nsec : Nat := tv_nsec &&& 0x3fffffff
  let tv_sec : Nat := rtl8126_mac_ocp_read tp (h.PTP_EGRESS_TIME_BASE_S_8125 + regnum * 16 + 4)
  let tv_sec : Nat := (tv_sec <<< 16) % 2 ^ 64
  let tv_sec : Nat := tv_sec ||| rtl8126_mac_ocp_read tp (h.PTP_EGRESS_TIME_BASE_S_8125 + regnum * 16 + 2)
  let tv_sec : Nat := (tv_sec <<< 16) % 2 ^ 64
  let tv_sec : Nat := tv_sec ||| rtl8126_mac_ocp_read tp (h.PTP_EGRESS_TIME_BASE_S_8125 + regnum * 16)
  let tv_sec : Nat := tv_sec &&& 0x0000ffffffffffff
  (0, { tv_sec := s64 tv_sec, tv_nsec := s64 tv_nsec })

/-- Source lines 359-361: the ring slot computed from the 16-bit value `v`
read at register `0x2032`. -/
def tx_hwtstamp_regnum (v : Nat) : Nat :=
  let regnum : Nat := v &&& 0x0C00
  let regnum : Nat := regnum >>> 10
  (regnum + 3) % 4

/-- Source lines 349-382. -/
def rtl8126_ptp_tx_hwtstamp (h : Hdr) (tp : rtl8126_private) : rtl8126_private :=
  let skb := tp.ptp_tx_skb
  let tp := RTL_W8 tp h.PTP_ISR_8125 (h.PTP_ISR_TOK ||| h.PTP_ISR_TER)
  let regnum := tx_hwtstamp_regnum (RTL_R16 tp 0x2032)
  let ts64 := (rtl8126_ptp_egresstime h tp regnum).2
  let hwtstamp := ktime_set ts64.tv_sec ts64.tv_nsec
  let tp := { tp with ptp_tx_skb := none }
  let tp := { tp with tx_in_progress := false }
  let tp := { tp with trace := tp.trace ++ [Event.skb_tstamp_tx skb hwtstamp] }
  { tp with trace := tp.trace ++ [Event.dev_kfree_skb_any skb] }

/-- Source line 384: `HZ * 15` ticks. -/
def RTL8126_PTP_TX_TIMEOUT (h : Hdr) : Nat := h.HZ * 15

/-- Source lines 385-412, one poll step at tick count `jiffies`. -/
def rtl8126_ptp_tx_work (h : Hdr) (jiffies : Nat) (tp : rtl8126_private) : rtl8126_private :=
  if tp.ptp_tx_skb.isNone then
    tp
  else if time_is_before_jiffies jiffies ((tp.ptp_tx_start + RTL8126_PTP_TX_TIMEOUT h) % 2 ^ 64) then
    let tp := { tp with trace := tp.trace ++ [Event.dev_kfree_skb_any tp.ptp_tx_skb] }
    let tp := { tp with ptp_tx_skb := none }
    let tp := { tp with tx_in_progress := false }
    let tp := { tp with tx_hwtstamp_timeouts := tp.tx_hwtstamp_timeouts + 1 }
    RTL_W8 tp h.PTP_ISR_8125 (h.PTP_ISR_TOK ||| h.PTP_ISR_TER)
  else if RTL_R8 tp h.PTP_ISR_8125 &&& h.PTP_ISR_TOK ≠ 0 then
    rtl8126_ptp_tx_hwtstamp h tp
  else
    { tp with trace := tp.trace ++ [Event.schedule_work] }

/-! ## Timestamping configuration -/

/-- Source lines 414-441; `now` is what `ktime_get_real_ts64` returns. -/
def rtl8126_hwtstamp_enable (h : Hdr) (now : timespec64) (tp : rtl8126_private) (enable : Bool) :
    Int × rtl8126_private :=
  let tp := RTL_W16 tp h.PTP_CTRL_8125 0
  if enable then
    let tp := RTL_W8 tp h.PTP_ISR_8125 0xff
    let tp := rtl8126_mac_ocp_write tp 0xDC00 (rtl8126_mac_ocp_read tp 0xDC00 ||| BIT 6)
    let ptp_ctrl : Nat := BIT 0 ||| BIT 3 ||| BIT 4 ||| BIT 6 ||| BIT 10 ||| BIT 12
    let ptp_ctrl : Nat := if tp.ptp_master_mode then ptp_ctrl ||| BIT 1 else ptp_ctrl
    let tp := RTL_W16 tp h.PTP_CTRL_8125 ptp_ctrl
    let ts64 := now
    (0, (_rtl8126_phc_settime h tp ts64).2)
  else
    (0, tp)

/-- Source lines 542-550: `some hwtstamp` when the switch falls out with that
value of the local `hwtstamp`, `none` when it returns `-ERANGE`. -/
def set_tstamp_tx_type (tx_type : Int) : Option Bool :=
  if tx_type = HWTSTAMP_TX_ON then some true
  else if tx_type = HWTSTAMP_TX_OFF then some false
  else none

/-- Source lines 552-568: `some (rx_filter, hwtstamp)` with the values of
`config.rx_filter` and `hwtstamp` after the switch, `none` when it returns
`-ERANGE`. -/
def set_tstamp_rx_filter (rx_filter : Int) (hwtstamp : Bool) : Option (Int × Bool) :=
  if rx_filter = HWTSTAMP_FILTER_PTP_V2_EVENT ∨ rx_filter = HWTSTAMP_FILTER_PTP_V2_L2_EVENT ∨
      rx_filter = HWTSTAMP_FILTER_PTP_V2_L4_EVENT ∨ rx_filter = HWTSTAMP_FILTER_PTP_V2_SYNC ∨
      rx_filter = HWTSTAMP_FILTER_PTP_V2_L2_SYNC ∨ rx_filter = HWTSTAMP_FILTER_PTP_V2_L4_SYNC ∨
      rx_filter = HWTSTAMP_FILTER_PTP_V2_DELAY_REQ ∨
      rx_filter = HWTSTAMP_FILTER_PTP_V2_L2_DELAY_REQ ∨
      rx_filter = HWTSTAMP_FILTER_PTP_V2_L4_DELAY_REQ then
    some (HWTSTAMP_FILTER_PTP_V2_EVENT, true)
  else if rx_filter = HWTSTAMP_FILTER_NONE then some (rx_filter, hwtstamp)
  else none

/-- Source lines 528-578.  `ifr_data` is the request record in user memory
(`none` when `copy_from_user` faults), `writable` tells whether `copy_to_user`
succeeds, `now` is the wall clock.  Returns the C return value, the driver
state and the record copied back to the caller (`none` when nothing was
copied). -/
def rtl8126_set_tstamp (h : Hdr) (now : timespec64) (tp : rtl8126_private)
    (ifr_data : Option hwtstamp_config) (writable : Bool) :
    Int × rtl8126_private × Option hwtstamp_config :=
  match ifr_data with
  | none => (-EFAULT, tp, none)
  | some config =>
    if config.flags ≠ 0 then (-EINVAL, tp, none)
    else
      match set_tstamp_tx_type config.tx_type with
      | none => (-ERANGE, tp, none)
      | some hwtstamp =>
        match set_tstamp_rx_filter config.rx_filter hwtstamp with
        | none => (-ERANGE, tp, none)
        | some (rx_filter, hwtstamp) =>
          let config : hwtstamp_config := { config with rx_filter := rx_filter }
          let tp :=
            if tp.hwtstamp_config.tx_type ≠ config.tx_type ∨
                tp.hwtstamp_config.rx_filter ≠ config.rx_filter then
              (rtl8126_hwtstamp_enable h now { tp with hwtstamp_config := config } hwtstamp).2
            else tp
          if writable then (0, tp, some config) else (-EFAULT, tp, none)

/-- The nine PTPv2 receive filters that the second switch of
`rtl8126_set_tstamp` accepts (source lines 553-561), in source order. -/
def ptp_v2_filters : List Int :=
  [HWTSTAMP_FILTER_PTP_V2_EVENT, HWTSTAMP_FILTER_PTP_V2_L2_EVENT,
   HWTSTAMP_FILTER_PTP_V2_L4_EVENT, HWTSTAMP_FILTER_PTP_V2_SYNC,
   HWTSTAMP_FILTER_PTP_V2_L2_SYNC, HWTSTAMP_FILTER_PTP_V2_L4_SYNC,
   HWTSTAMP_FILTER_PTP_V2_DELAY_REQ, HWTSTAMP_FILTER_PTP_V2_L2_DELAY_REQ,
   HWTSTAMP_FILTER_PTP_V2_L4_DELAY_REQ]

/-! ## Pulse per second and receive timestamps -/

/-- Kernel `enum ptp_clock_request.type` (`include/linux/ptp_clock_kernel.h`). -/
def PTP_CLK_REQ_EXTTS : Int := 0

/-- Kernel `enum ptp_clock_request.type`. -/
def PTP_CLK_REQ_PEROUT : Int := 1

/-- Kernel `enum ptp_clock_request.type`. -/
def PTP_CLK_REQ_PPS : Int := 2

/-- C `~x` on a 32-bit `int`, as a bit pattern. -/
def not32 (x : Nat) : Nat := 0xFFFFFFFF ^^^ x

/-- Source lines 246-269; `rq_type` is `rq->type`, `on_` is the argument `on`,
`ptp_ctrl` is a `u16`. -/
def rtl8126_phc_enable (h : Hdr) (tp : rtl8126_private) (rq_type : Int) (on_ : Int) :
    Int × rtl8126_private :=
  if rq_type = PTP_CLK_REQ_PPS then
    let ptp_ctrl : Nat := RTL_R16 tp h.PTP_CTRL_8125
    let ptp_ctrl : Nat := (ptp_ctrl &&& not32 (BIT 15)) % 2 ^ 16
    let ptp_ctrl : Nat :=
      if on_ ≠ 0 then (ptp_ctrl ||| BIT 14) % 2 ^ 16
      else (ptp_ctrl &&& not32 (BIT 14)) % 2 ^ 16
    let tp := RTL_W16 tp h.PTP_CTRL_8125 ptp_ctrl
    (0, tp)
  else
    (-EOPNOTSUPP, tp)

/-- The three timestamp fields of `struct RxDescV3` (declared in `r8126.h`)
that `rtl8126_rx_ptp_pktstamp` reads, each a 32-bit word already in CPU byte
order: `RxDescTimeStamp.TimeStampLow`, `RxDescTimeStamp.TimeStampHigh` and
`RxDescPTPDDWord4.TimeStampHHigh`. -/
structure RxDescV3 where
  TimeStampLow : Nat
  TimeStampHigh : Nat
  TimeStampHHigh : Nat
  deriving DecidableEq, Repr

/-- Source lines 619-621: the 64-bit sum of the two seconds words, stored in the
signed `time64_t tv_sec`, and the nanoseconds word stored in `long tv_nsec`. -/
def rx_ptp_pktstamp_ts (descv3 : RxDescV3) : timespec64 :=
  let tv_sec : Nat :=
    (descv3.TimeStampHigh % 2 ^ 32 + ((descv3.TimeStampHHigh % 2 ^ 32) <<< 32) % 2 ^ 64) % 2 ^ 64
  let tv_nsec : Nat := descv3.TimeStampLow % 2 ^ 32
  { tv_sec := s64 tv_sec, tv_nsec := s64 tv_nsec }

/-- Source lines 613-624: the value stored in `skb_hwtstamps(skb)->hwtstamp`. -/
def rtl8126_rx_ptp_pktstamp (_tp : rtl8126_private) (_skb : Option Nat) (descv3 : RxDescV3) : Int :=
  ktime_set (rx_ptp_pktstamp_ts descv3).tv_sec (rx_ptp_pktstamp_ts descv3).tv_nsec

/-- Number of times a trace releases a packet (`dev_kfree_skb_any` events). -/
def kfree_count (tr : List Event) : Nat :=
  tr.countP (fun e => match e with
    | Event.dev_kfree_skb_any _ => true
    | _ => false)

/-! ## A concrete device -/

/-- An idle device with all registers zero, no stored configuration and the
frequency bound that `rtl8126_ptp_create_clock` installs (source line 459). -/
def tp0 : rtl8126_private where
  regs := fun _ => 0
  ocp := fun _ => 0
  ptp_tx_skb := none
  ptp_tx_start := 0
  tx_in_progress := false
  tx_hwtstamp_timeouts := 0
  hwtstamp_config := { flags := 0, tx_type := 0, rx_filter := 0 }
  ptp_master_mode := false
  max_adj := 119304647
  trace := []

/-- A device with a capture pending since tick 1000: packet handle 7, write
pointer 2 in bits 10..11 of register `0x2032`, no completion token, and ring
slot 1 holding 100 s + 500000000 ns (`0x1DCD6500`). -/
def tp_pending : rtl8126_private :=
  { tp0 with
    regs := fun r => if r = 0x2032 then 2 <<< 10 else 0
    ocp := fun r =>
      if r = r8126_hdr.PTP_EGRESS_TIME_BASE_NS_8125 + 1 * 16 then 0x6500
      else if r = r8126_hdr.PTP_EGRESS_TIME_BASE_NS_8125 + 1 * 16 + 2 then 0x1DCD
      else if r = r8126_hdr.PTP_EGRESS_TIME_BASE_S_8125 + 1 * 16 then 100
      else 0
    ptp_tx_skb := some 7
    ptp_tx_start := 1000
    tx_in_progress := true }

/-- The device `tp_pending` once the hardware has raised the completion token
in the interrupt status register. -/
def tp_completed : rtl8126_private :=
  { tp_pending with
    regs := fun r =>
      if r = 0x2032 then 2 <<< 10
      else if r = r8126_hdr.PTP_ISR_8125 then r8126_hdr.PTP_ISR_TOK
      else 0 }

/-! ## Auxiliary facts -/

theorem and_mask30 (n : Nat) : n &&& 0x3fffffff = n % 2 ^ 30 :=
  Nat.and_pow_two_sub_one_eq_mod n 30

theorem and_mask48 (n : Nat) : n &&& 0xffffffffffff = n % 2 ^ 48 :=
  Nat.and_pow_two_sub_one_eq_mod n 48

theorem shl_or_eq_add (hi lo k : Nat) (hlo : lo < 2 ^ k) : hi <<< k ||| lo = hi * 2 ^ k + lo := by
  rw [Nat.shiftLeft_eq, Nat.mul_comm hi, Nat.mul_add_lt_is_or hlo]

theorem u64_of_nonneg (x : Int) (h0 : 0 ≤ x) (h1 : x < 2 ^ 64) : u64 x = x.toNat := by
  unfold u64
  rw [Int.emod_eq_of_lt h0 h1]

theorem s64_of_lt (n : Nat) (hn : n < 2 ^ 63) : s64 n = (n : Int) := by
  unfold s64
  have h : n % 2 ^ 64 = n := Nat.mod_eq_of_lt (by omega)
  rw [h, if_pos hn]

theorem mask_0C00_shift (v : Nat) : (v &&& 0x0C00) >>> 10 = v / 2 ^ 10 % 4 := by
  apply Nat.eq_of_testBit_eq
  intro i
  rw [Nat.testBit_shiftRight, Nat.testBit_and, show (4 : Nat) = 2 ^ 2 from rfl,
    Nat.testBit_mod_two_pow, ← Nat.shiftRight_eq_div_pow, Nat.testBit_shiftRight]
  by_cases hi : i < 2
  · have h2 : Nat.testBit 0x0C00 (10 + i) = true := by
      interval_cases i <;> decide
    simp [hi, h2]
  · have h2 : Nat.testBit 0x0C00 (10 + i) = false :=
      Nat.testBit_lt_two_pow (lt_of_lt_of_le (by norm_num : (0x0C00 : Nat) < 2 ^ 12)
        (Nat.pow_le_pow_right (by norm_num) (by omega)))
    simp [hi, h2]

theorem regnum_eq_div_mod (v : Nat) : tx_hwtstamp_regnum v = (v / 2 ^ 10 % 4 + 3) % 4 := by
  simp only [tx_hwtstamp_regnum, mask_0C00_shift]

theorem time_is_before_jiffies_of_late (start T e : Nat) (h1 : T < e) (h2 : e ≤ T + 2 ^ 63) :
    time_is_before_jiffies ((start + e) % 2 ^ 64) ((start + T) % 2 ^ 64) = true := by
  simp only [time_is_before_jiffies, time_after, s64, u64, decide_eq_true_eq]
  split <;> omega

theorem time_is_before_jiffies_of_early (start T e : Nat) (h1 : e ≤ T) (h2 : T < e + 2 ^ 63) :
    time_is_before_jiffies ((start + e) % 2 ^ 64) ((start + T) % 2 ^ 64) = false := by
  simp only [time_is_before_jiffies, time_after, s64, u64, decide_eq_false_iff_not, not_lt]
  split <;> omega

theorem shl16_or (a b : Nat) (ha : a < 2 ^ 48) (hb : b < 2 ^ 16) :
    (a <<< 16) % 2 ^ 64 ||| b = a * 2 ^ 16 + b := by
  have hsh : a <<< 16 < 2 ^ 64 := by
    rw [Nat.shiftLeft_eq]; omega
  rw [Nat.mod_eq_of_lt hsh, shl_or_eq_add _ _ _ hb]

theorem egresstime_eq (h : Hdr) (tp : rtl8126_private) (regnum : Nat) :
    (rtl8126_ptp_egresstime h tp regnum).2 =
      { tv_sec :=
          (((rtl8126_mac_ocp_read tp (h.PTP_EGRESS_TIME_BASE_S_8125 + regnum * 16 + 4) * 2 ^ 32
            + rtl8126_mac_ocp_read tp (h.PTP_EGRESS_TIME_BASE_S_8125 + regnum * 16 + 2) * 2 ^ 16
            + rtl8126_mac_ocp_read tp (h.PTP_EGRESS_TIME_BASE_S_8125 + regnum * 16)) % 2 ^ 48 : Nat) : Int)
        tv_nsec :=
          (((rtl8126_mac_ocp_read tp (h.PTP_EGRESS_TIME_BASE_NS_8125 + regnum * 16 + 2) * 2 ^ 16
            + rtl8126_mac_ocp_read tp (h.PTP_EGRESS_TIME_BASE_NS_8125 + regnum * 16)) % 2 ^ 30 : Nat) : Int) } := by
  have b : ∀ a, rtl8126_mac_ocp_read tp a < 2 ^ 16 := fun a => Nat.mod_lt _ (by norm_num)
  have n1 := b (h.PTP_EGRESS_TIME_BASE_NS_8125 + regnum * 16 + 2)
  have n0 := b (h.PTP_EGRESS_TIME_BASE_NS_8125 + regnum * 16)
  have s2 := b (h.PTP_EGRESS_TIME_BASE_S_8125 + regnum * 16 + 4)
  have s1 := b (h.PTP_EGRESS_TIME_BASE_S_8125 + regnum * 16 + 2)
  have s0 := b (h.PTP_EGRESS_TIME_BASE_S_8125 + regnum * 16)
  simp only [rtl8126_ptp_egresstime]
  rw [shl16_or _ _ (by omega) n0, shl16_or _ _ (by omega) s1, shl16_or _ _ (by omega) s0,
    and_mask30, and_mask48, s64_of_lt _ (by omega), s64_of_lt _ (by omega)]
  have e : ∀ x y z : Nat, (x * 2 ^ 16 + y) * 2 ^ 16 + z = x * 2 ^ 32 + y * 2 ^ 16 + z := by
    intro x y z; omega
  rw [e]

theorem mem_ptp_v2_filters (rx : Int) :
    rx ∈ ptp_v2_filters ↔
      (rx = HWTSTAMP_FILTER_PTP_V2_EVENT ∨ rx = HWTSTAMP_FILTER_PTP_V2_L2_EVENT ∨
        rx = HWTSTAMP_FILTER_PTP_V2_L4_EVENT ∨ rx = HWTSTAMP_FILTER_PTP_V2_SYNC ∨
        rx = HWTSTAMP_FILTER_PTP_V2_L2_SYNC ∨ rx = HWTSTAMP_FILTER_PTP_V2_L4_SYNC ∨
        rx = HWTSTAMP_FILTER_PTP_V2_DELAY_REQ ∨
        rx = HWTSTAMP_FILTER_PTP_V2_L2_DELAY_REQ ∨
        rx = HWTSTAMP_FILTER_PTP_V2_L4_DELAY_REQ) := by
  simp [ptp_v2_filters]

theorem tx_type_switch_ok (tx : Int) (htx : tx = HWTSTAMP_TX_ON ∨ tx = HWTSTAMP_TX_OFF) :
    ∃ b, set_tstamp_tx_type tx = some b := by
  rcases htx with rfl | rfl
  · exact ⟨true, rfl⟩
  · exact ⟨false, rfl⟩

theorem tx_type_switch_bad (tx : Int) (h1 : tx ≠ HWTSTAMP_TX_ON) (h2 : tx ≠ HWTSTAMP_TX_OFF) :
    set_tstamp_tx_type tx = none := by
  simp [set_tstamp_tx_type, h1, h2]

theorem rx_filter_switch_ok (rx : Int) (b : Bool)
    (hrx : rx = HWTSTAMP_FILTER_NONE ∨ rx ∈ ptp_v2_filters) :
    ∃ b', set_tstamp_rx_filter rx b
      = some (if rx ∈ ptp_v2_filters then HWTSTAMP_FILTER_PTP_V2_EVENT
          else HWTSTAMP_FILTER_NONE, b') := by
  by_cases hm : rx ∈ ptp_v2_filters
  · refine ⟨true, ?_⟩
    have hm' := (mem_ptp_v2_filters rx).mp hm
    simp only [set_tstamp_rx_filter, hm', hm, if_true]
  · have hn : rx = HWTSTAMP_FILTER_NONE := hrx.resolve_right hm
    have hm' : ¬ _ := fun x => hm ((mem_ptp_v2_filters rx).mpr x)
    refine ⟨b, ?_⟩
    simp only [set_tstamp_rx_filter, hm', hm, if_false]
    simp [hn]

theorem rx_filter_switch_bad (rx : Int) (b : Bool)
    (h1 : rx ≠ HWTSTAMP_FILTER_NONE) (h2 : rx ∉ ptp_v2_filters) :
    set_tstamp_rx_filter rx b = none := by
  have hm' : ¬ _ := fun x => h2 ((mem_ptp_v2_filters rx).mpr x)
  simp only [set_tstamp_rx_filter, hm', if_false, h1]

theorem hwtstamp_enable_config (h : Hdr) (now : timespec64) (tp : rtl8126_private) (en : Bool) :
    (rtl8126_hwtstamp_enable h now tp en).2.hwtstamp_config = tp.hwtstamp_config := by
  cases en <;> rfl

/-- What `rtl8126_set_tstamp` does with a request that passes validation. -/
theorem set_tstamp_accepts (h : Hdr) (now : timespec64) (tp : rtl8126_private)
    (config : hwtstamp_config) (writable : Bool)
    (hflags : config.flags = 0)
    (htx : config.tx_type = HWTSTAMP_TX_ON ∨ config.tx_type = HWTSTAMP_TX_OFF)
    (hrx : config.rx_filter = HWTSTAMP_FILTER_NONE ∨ config.rx_filter ∈ ptp_v2_filters) :
    ∃ b : Bool,
      rtl8126_set_tstamp h now tp (some config) writable =
        (if writable then (0,
            if tp.hwtstamp_config.tx_type ≠ config.tx_type ∨
                tp.hwtstamp_config.rx_filter ≠
                  (if config.rx_filter ∈ ptp_v2_filters then HWTSTAMP_FILTER_PTP_V2_EVENT
                    else HWTSTAMP_FILTER_NONE) then
              (rtl8126_hwtstamp_enable h now
                { tp with hwtstamp_config :=
                    { config with rx_filter :=
                        if config.rx_filter ∈ ptp_v2_filters then HWTSTAMP_FILTER_PTP_V2_EVENT
                        else HWTSTAMP_FILTER_NONE } } b).2
            else tp,
            some { config with rx_filter :=
              if config.rx_filter ∈ ptp_v2_filters then HWTSTAMP_FILTER_PTP_V2_EVENT
              else HWTSTAMP_FILTER_NONE })
         else (-EFAULT,
            if tp.hwtstamp_config.tx_type ≠ config.tx_type ∨
                tp.hwtstamp_config.rx_filter ≠
                  (if config.rx_filter ∈ ptp_v2_filters then HWTSTAMP_FILTER_PTP_V2_EVENT
                    else HWTSTAMP_FILTER_NONE) then
              (rtl8126_hwtstamp_enable h now
                { tp with hwtstamp_config :=
                    { config with rx_filter :=
                        if config.rx_filter ∈ ptp_v2_filters then HWTSTAMP_FILTER_PTP_V2_EVENT
                        else HWTSTAMP_FILTER_NONE } } b).2
            else tp,
            none)) := by
  obtain ⟨b1, h1⟩ := tx_type_switch_ok _ htx
  obtain ⟨b2, h2⟩ := rx_filter_switch_ok _ b1 hrx
  refine ⟨b2, ?_⟩
  simp only [rtl8126_set_tstamp, hflags, h1, h2, ne_eq, not_true_eq_false, if_false]

/-- After an accepted request the stored `tx_type` and `rx_filter` are the
requested `tx_type` and the coalesced filter, whatever the outcome of the copy
back to the caller. -/
theorem set_tstamp_stored (h : Hdr) (now : timespec64) (tp : rtl8126_private)
    (config : hwtstamp_config) (writable : Bool)
    (hflags : config.flags = 0)
    (htx : config.tx_type = HWTSTAMP_TX_ON ∨ config.tx_type = HWTSTAMP_TX_OFF)
    (hrx : config.rx_filter = HWTSTAMP_FILTER_NONE ∨ config.rx_filter ∈ ptp_v2_filters) :
    (rtl8126_set_tstamp h now tp (some config) writable).2.1.hwtstamp_config.tx_type
      = config.tx_type ∧
    (rtl8126_set_tstamp h now tp (some config) writable).2.1.hwtstamp_config.rx_filter
      = (if config.rx_filter ∈ ptp_v2_filters
          then HWTSTAMP_FILTER_PTP_V2_EVENT else HWTSTAMP_FILTER_NONE) := by
  obtain ⟨b, hb⟩ := set_tstamp_accepts h now tp config writable hflags htx hrx
  rw [hb]
  generalize (if config.rx_filter ∈ ptp_v2_filters
    then HWTSTAMP_FILTER_PTP_V2_EVENT else HWTSTAMP_FILTER_NONE) = rx
  have key : ∀ t : rtl8126_private,
      t = (if tp.hwtstamp_config.tx_type ≠ config.tx_type ∨ tp.hwtstamp_config.rx_filter ≠ rx
        then (rtl8126_hwtstamp_enable h now
          { tp with hwtstamp_config := { config with rx_filter := rx } } b).2 else tp) →
      t.hwtstamp_config.tx_type = config.tx_type ∧ t.hwtstamp_config.rx_filter = rx := by
    intro t ht
    by_cases hc : tp.hwtstamp_config.tx_type ≠ config.tx_type ∨ tp.hwtstamp_config.rx_filter ≠ rx
    · rw [if_pos hc] at ht
      rw [ht, hwtstamp_enable_config]
      exact ⟨rfl, rfl⟩
    · rw [if_neg hc] at ht
      simp only [ne_eq, not_or, not_not] at hc
      rw [ht]
      exact hc
  cases writable
  · exact key _ rfl
  · exact key _ rfl

theorem or_and_flag (a f : Nat) : (a ||| f) &&& f = f := by
  apply Nat.eq_of_testBit_eq
  intro i
  simp only [Nat.testBit_and, Nat.testBit_or]
  cases a.testBit i <;> cases f.testBit i <;> rfl

/-- A field masked by `m` carries a flag `f` lying outside `m` exactly when
the flag is OR'd in, which the code does exactly when `neg` holds. -/
theorem flag_iff (x m f w : Nat) (neg : Bool) (hm : m < 2 ^ w) (hf0 : f ≠ 0)
    (hf1 : f &&& m = 0) (hf2 : f < 2 ^ w) :
    ((if neg then ((x &&& m) ||| f) % 2 ^ w else x &&& m) &&& f = f ↔ neg = true) ∧
    (if neg then ((x &&& m) ||| f) % 2 ^ w else x &&& m) < 2 ^ w := by
  have hx : x &&& m < 2 ^ w := Nat.and_lt_two_pow x hm
  cases neg
  · have hz : (x &&& m) &&& f = 0 := by
      rw [Nat.and_assoc, Nat.and_comm m f, hf1, Nat.and_zero]
    simp only [Bool.false_eq_true, if_false, hz, iff_false]
    exact ⟨fun e => hf0 e.symm, hx⟩
  · have hlt : (x &&& m) ||| f < 2 ^ w := Nat.or_lt_two_pow hx hf2
    simp only [if_true, Nat.mod_eq_of_lt hlt, or_and_flag, iff_true]
    exact ⟨trivial, hlt⟩

theorem adjtime_nsec_flag (h : Hdr) (d : Int)
    (hn0 : h.PTP_SOFT_CONFIG_TIME_NS_NEGATIVE ≠ 0)
    (hn1 : h.PTP_SOFT_CONFIG_TIME_NS_NEGATIVE &&& 0x3fffffff = 0)
    (hn2 : h.PTP_SOFT_CONFIG_TIME_NS_NEGATIVE < 2 ^ 32) :
    (adjtime_nsec h d &&& h.PTP_SOFT_CONFIG_TIME_NS_NEGATIVE
        = h.PTP_SOFT_CONFIG_TIME_NS_NEGATIVE ↔ d < 0) ∧
    adjtime_nsec h d < 2 ^ 32 := by
  have k := flag_iff
    (if decide (d < 0) = true
      then u32 (-((u32 (ns_to_timespec64 (s64 (if d < 0 then u64 (-d) else u64 d))).tv_nsec : Nat) : Int))
      else u32 (ns_to_timespec64 (s64 (if d < 0 then u64 (-d) else u64 d))).tv_nsec)
    0x3fffffff h.PTP_SOFT_CONFIG_TIME_NS_NEGATIVE 32 (decide (d < 0)) (by norm_num) hn0 hn1 hn2
  simpa only [adjtime_nsec, decide_eq_true_eq] using k

theorem adjtime_sec_flag (h : Hdr) (d : Int)
    (hs0 : h.PTP_SOFT_CONFIG_TIME_S_NEGATIVE ≠ 0)
    (hs1 : h.PTP_SOFT_CONFIG_TIME_S_NEGATIVE &&& 0x0000ffffffffffff = 0)
    (hs2 : h.PTP_SOFT_CONFIG_TIME_S_NEGATIVE < 2 ^ 64) :
    (adjtime_sec h d &&& h.PTP_SOFT_CONFIG_TIME_S_NEGATIVE
        = h.PTP_SOFT_CONFIG_TIME_S_NEGATIVE ↔ d < 0) ∧
    adjtime_sec h d < 2 ^ 64 := by
  have k := flag_iff
    (if decide (d < 0) = true
      then u64 (-((u64 (ns_to_timespec64 (s64 (if d < 0 then u64 (-d) else u64 d))).tv_sec : Nat) : Int))
      else u64 (ns_to_timespec64 (s64 (if d < 0 then u64 (-d) else u64 d))).tv_sec)
    0x0000ffffffffffff h.PTP_SOFT_CONFIG_TIME_S_NEGATIVE 64 (decide (d < 0)) (by norm_num)
    hs0 hs1 hs2
  simpa only [adjtime_sec, decide_eq_true_eq] using k

theorem u32_of_nonneg (x : Int) (h0 : 0 ≤ x) (h1 : x < 2 ^ 32) : u32 x = x.toNat := by
  unfold u32
  rw [Int.emod_eq_of_lt h0 h1]

theorem u32_neg_cast (k : Nat) (h0 : 0 < k) (h1 : k < 2 ^ 32) : u32 (-(k : Int)) = 2 ^ 32 - k := by
  unfold u32
  omega

theorem s32_of_lt (n : Nat) (hn : n < 2 ^ 31) : s32 n = (n : Int) := by
  unfold s32
  have h : n % 2 ^ 32 = n := Nat.mod_eq_of_lt (by omega)
  rw [h, if_pos hn]

/-- The two register writes of `_rtl8126_phc_adjfreq` for a request within the
frequency bound, with the written correction in closed form. -/
theorem adjfreq_trace (h : Hdr) (tp : rtl8126_private) (ppb : Int) (hb : |ppb| ≤ 119304647) :
    (_rtl8126_phc_adjfreq h tp ppb).2.trace = tp.trace ++
      [Event.W32 h.PTP_SOFT_CONFIG_Time_NS_8125
         (if ppb < 0 then
            ((2 ^ 30 - ppb.natAbs * 9) ||| h.PTP_ADJUST_TIME_NS_NEGATIVE) % 2 ^ 32
          else ppb.natAbs * 9),
       Event.W16 h.PTP_TIME_CORRECT_CMD_8125
         ((h.PTP_CMD_DRIFT_LOCAL_TIME ||| h.PTP_EXEC_CMD) % 2 ^ 16)] := by
  have hb2 := abs_le.mp hb
  by_cases hneg : ppb < 0
  · obtain ⟨m, rfl⟩ : ∃ m : Nat, ppb = -(m : Int) := ⟨ppb.natAbs, by omega⟩
    have hm0 : 0 < m := by omega
    have hm1 : m ≤ 119304647 := by omega
    have e1 : u32 (-(-(m : Int))) = m := by
      rw [neg_neg, u32_of_nonneg _ (by omega) (by omega)]; simp
    have e2 : s32 m = (m : Int) := s32_of_lt m (by omega)
    have e3 : u32 ((m : Int) * 9) = m * 9 := by
      rw [u32_of_nonneg _ (by omega) (by omega)]; omega
    have e4 : u32 (-((m * 9 : Nat) : Int)) = 2 ^ 32 - m * 9 :=
      u32_neg_cast (m * 9) (by omega) (by omega)
    have e5 : (2 ^ 32 - m * 9) % 2 ^ 30 = 2 ^ 30 - m * 9 := by omega
    simp only [_rtl8126_phc_adjfreq, hneg, decide_True, if_true, e1, e2, e3, e4, and_mask30, e5,
      RTL_W32, RTL_W16, Int.natAbs_neg, Int.natAbs_ofNat, Nat.mod_mod, List.append_assoc,
      List.singleton_append]
  · obtain ⟨m, rfl⟩ : ∃ m : Nat, ppb = (m : Int) := ⟨ppb.natAbs, by omega⟩
    have hm1 : m ≤ 119304647 := by omega
    have e3 : u32 ((m : Int) * 9) = m * 9 := by
      rw [u32_of_nonneg _ (by omega) (by omega)]; omega
    have e5 : m * 9 % 2 ^ 30 % 2 ^ 32 = m * 9 := by
      rw [Nat.mod_eq_of_lt (by omega : m * 9 < 2 ^ 30), Nat.mod_eq_of_lt (by omega)]
    simp only [_rtl8126_phc_adjfreq, hneg, decide_False, if_false, Bool.false_eq_true, e3,
      and_mask30, e5, RTL_W32, RTL_W16, Int.natAbs_ofNat, List.append_assoc,
      List.singleton_append]

theorem adjfreq_regs (h : Hdr) (tp : rtl8126_private) (ppb : Int) (r : Nat)
    (h1 : r ≠ h.PTP_SOFT_CONFIG_Time_NS_8125) (h2 : r ≠ h.PTP_TIME_CORRECT_CMD_8125) :
    (_rtl8126_phc_adjfreq h tp ppb).2.regs r = tp.regs r := by
  simp only [_rtl8126_phc_adjfreq, RTL_W32, RTL_W16, h1, h2, if_false]

theorem or3_eq_add (s2 s1 s0 : Nat) (h1 : s1 < 2 ^ 16) (h0 : s0 < 2 ^ 16) :
    (s2 <<< 32) ||| (s1 <<< 16) ||| s0 = s2 * 2 ^ 32 + s1 * 2 ^ 16 + s0 := by
  have a1 : s1 <<< 16 < 2 ^ 32 := by
    rw [Nat.shiftLeft_eq]; omega
  rw [shl_or_eq_add s2 _ 32 a1, Nat.shiftLeft_eq]
  have a2 : s2 * 2 ^ 32 + s1 * 2 ^ 16 = 2 ^ 16 * (s2 * 2 ^ 16 + s1) := by omega
  rw [a2, ← Nat.mul_add_lt_is_or h0]

theorem testBit_BIT (n i : Nat) : (BIT n).testBit i = decide (n = i) := by
  rw [BIT, Nat.one_shiftLeft, Nat.testBit_two_pow]

theorem testBit_not32 (x i : Nat) : (not32 x).testBit i = (decide (i < 32) != x.testBit i) := by
  rw [not32, Nat.testBit_xor, show (0xFFFFFFFF : Nat) = 2 ^ 32 - 1 from rfl,
    Nat.testBit_two_pow_sub_one]

/-- Bits of the control value that `rtl8126_phc_enable` computes from the old
16-bit value `x`. -/
theorem phc_enable_bits (x : Nat) (on_ : Int) (i : Nat) (hi : i < 16) :
    (if on_ ≠ 0 then ((x &&& not32 (BIT 15)) % 2 ^ 16 ||| BIT 14) % 2 ^ 16
      else ((x &&& not32 (BIT 15)) % 2 ^ 16 &&& not32 (BIT 14)) % 2 ^ 16).testBit i
      = if i = 15 then false else if i = 14 then decide (on_ ≠ 0) else x.testBit i := by
  have h32 : i < 32 := by omega
  by_cases hon : on_ ≠ 0
  · rw [if_pos hon]
    simp only [Nat.testBit_mod_two_pow, Nat.testBit_or, Nat.testBit_and,
      testBit_not32, testBit_BIT, hi, h32, decide_True, Bool.true_and]
    by_cases h15 : i = 15
    · subst h15; simp
    · by_cases h14 : i = 14
      · subst h14; simp [hon]
      · have a : ¬ 15 = i := fun e => h15 e.symm
        have b : ¬ 14 = i := fun e => h14 e.symm
        simp [h15, h14, a, b]
  · rw [if_neg hon]
    simp only [Nat.testBit_mod_two_pow, Nat.testBit_and,
      testBit_not32, testBit_BIT, hi, h32, decide_True, Bool.true_and]
    by_cases h15 : i = 15
    · subst h15; simp
    · by_cases h14 : i = 14
      · subst h14; simp [hon]
      · have a : ¬ 15 = i := fun e => h15 e.symm
        have b : ¬ 14 = i := fun e => h14 e.symm
        simp [h15, h14, a, b]

/-- The poll step on a pending capture run more than the timeout after the
start takes the timeout branch, whatever the completion token. -/
theorem tx_work_late (h : Hdr) (tp : rtl8126_private) (skb e : Nat)
    (hskb : tp.ptp_tx_skb = some skb)
    (hlate : RTL8126_PTP_TX_TIMEOUT h < e) (hwin : e ≤ RTL8126_PTP_TX_TIMEOUT h + 2 ^ 63) :
    rtl8126_ptp_tx_work h ((tp.ptp_tx_start + e) % 2 ^ 64) tp =
      RTL_W8
        { tp with
          trace := tp.trace ++ [Event.dev_kfree_skb_any (some skb)]
          ptp_tx_skb := none
          tx_in_progress := false
          tx_hwtstamp_timeouts := tp.tx_hwtstamp_timeouts + 1 }
        h.PTP_ISR_8125 (h.PTP_ISR_TOK ||| h.PTP_ISR_TER) := by
  have ht := time_is_before_jiffies_of_late tp.ptp_tx_start _ e hlate hwin
  simp only [rtl8126_ptp_tx_work, hskb, Option.isNone_some, Bool.false_eq_true, ↓reduceIte, ht]

/-- The poll step on a pending capture run no later than the timeout after
the start looks at the completion token: set, it collects the timestamp;
clear, it schedules itself again. -/
theorem tx_work_on_time (h : Hdr) (tp : rtl8126_private) (skb e : Nat)
    (hskb : tp.ptp_tx_skb = some skb)
    (he : e ≤ RTL8126_PTP_TX_TIMEOUT h) (hHZ : RTL8126_PTP_TX_TIMEOUT h < 2 ^ 63) :
    rtl8126_ptp_tx_work h ((tp.ptp_tx_start + e) % 2 ^ 64) tp =
      if RTL_R8 tp h.PTP_ISR_8125 &&& h.PTP_ISR_TOK ≠ 0 then rtl8126_ptp_tx_hwtstamp h tp
      else { tp with trace := tp.trace ++ [Event.schedule_work] } := by
  have ht := time_is_before_jiffies_of_early tp.ptp_tx_start _ e he (by omega)
  simp only [rtl8126_ptp_tx_work, hskb, Option.isNone_some, Bool.false_eq_true, ↓reduceIte, ht]

/-- What `rtl8126_ptp_tx_hwtstamp` leaves behind. -/
theorem tx_hwtstamp_effect (h : Hdr) (tp : rtl8126_private) (hisr : h.PTP_ISR_8125 ≠ 0x2032) :
    (rtl8126_ptp_tx_hwtstamp h tp).ptp_tx_skb = none ∧
    (rtl8126_ptp_tx_hwtstamp h tp).tx_in_progress = false ∧
    (rtl8126_ptp_tx_hwtstamp h tp).tx_hwtstamp_timeouts = tp.tx_hwtstamp_timeouts ∧
    (rtl8126_ptp_tx_hwtstamp h tp).trace =
      tp.trace ++
        [Event.W8 h.PTP_ISR_8125 ((h.PTP_ISR_TOK ||| h.PTP_ISR_TER) % 2 ^ 8),
         Event.skb_tstamp_tx tp.ptp_tx_skb
           (ktime_set
             (rtl8126_ptp_egresstime h tp ((RTL_R16 tp 0x2032 / 2 ^ 10 % 4 + 3) % 4)).2.tv_sec
             (rtl8126_ptp_egresstime h tp ((RTL_R16 tp 0x2032 / 2 ^ 10 % 4 + 3) % 4)).2.tv_nsec),
         Event.dev_kfree_skb_any tp.ptp_tx_skb] := by
  have hr : RTL_R16 (RTL_W8 tp h.PTP_ISR_8125 (h.PTP_ISR_TOK ||| h.PTP_ISR_TER)) 0x2032
      = RTL_R16 tp 0x2032 := by
    simp [RTL_R16, RTL_W8, Ne.symm hisr]
  refine ⟨rfl, rfl, rfl, ?_⟩
  simp only [rtl8126_ptp_tx_hwtstamp, hr, regnum_eq_div_mod]
  simp [RTL_W8, rtl8126_ptp_egresstime, rtl8126_mac_ocp_read]

theorem or_flag_mod (a f n : Nat) (hf : f % 2 ^ n = 0) : (a ||| f) % 2 ^ n = a % 2 ^ n := by
  apply Nat.eq_of_testBit_eq
  intro i
  have hfi : (f % 2 ^ n).testBit i = false := by rw [hf]; exact Nat.zero_testBit i
  rw [Nat.testBit_mod_two_pow] at hfi
  rw [Nat.testBit_mod_two_pow, Nat.testBit_mod_two_pow, Nat.testBit_or]
  by_cases hi : i < n
  · simp only [hi, decide_True, Bool.true_and] at hfi ⊢
    rw [hfi, Bool.or_false]
  · simp [hi]

/-- The time split of `_rtl8126_phc_adjtime` for a delta of magnitude below
`2^63`: whole seconds and nanosecond remainder of the magnitude. -/
theorem adjtime_split (d : Int) (hd0 : -2 ^ 63 < d) (hd1 : d < 2 ^ 63) :
    ns_to_timespec64 (s64 (if d < 0 then u64 (-d) else u64 d))
      = { tv_sec := ((d.natAbs / 10 ^ 9 : Nat) : Int),
          tv_nsec := ((d.natAbs % 10 ^ 9 : Nat) : Int) } := by
  have hm : (if d < 0 then u64 (-d) else u64 d) = d.natAbs := by
    split
    · rw [u64_of_nonneg _ (by omega) (by omega)]; omega
    · rw [u64_of_nonneg _ (by omega) (by omega)]; omega
  have hlt : d.natAbs < 2 ^ 63 := by omega
  rw [hm, s64_of_lt _ hlt]
  unfold ns_to_timespec64 NSEC_PER_SEC
  by_cases h0 : d.natAbs = 0
  · rw [h0]; rfl
  · have hpos : ((d.natAbs : Nat) : Int) > 0 := by omega
    rw [if_pos hpos]
    congr 1

theorem adjtime_nsec_lt (h : Hdr) (d : Int) : adjtime_nsec h d < 2 ^ 32 := by
  unfold adjtime_nsec
  by_cases hd : d < 0
  · simp only [hd, decide_True, if_true]
    exact Nat.mod_lt _ (by norm_num)
  · simp only [hd, decide_False, Bool.false_eq_true, if_false, and_mask30]
    exact lt_of_lt_of_le (Nat.mod_lt _ (by norm_num)) (by norm_num)

/-- The four register writes of `_rtl8126_phc_adjtime`. -/
theorem adjtime_trace (h : Hdr) (tp : rtl8126_private) (d : Int) :
    (_rtl8126_phc_adjtime h tp d).2.trace = tp.trace ++
      [Event.W32 h.PTP_SOFT_CONFIG_Time_NS_8125 (adjtime_nsec h d),
       Event.W32 h.PTP_SOFT_CONFIG_Time_S_8125 (adjtime_sec h d % 2 ^ 32),
       Event.W16 (h.PTP_SOFT_CONFIG_Time_S_8125 + 4) (adjtime_sec h d / 2 ^ 32 % 2 ^ 16),
       Event.W16 h.PTP_TIME_CORRECT_CMD_8125
         ((h.PTP_CMD_SET_LOCAL_TIME ||| h.PTP_EXEC_CMD) % 2 ^ 16)] := by
  simp only [_rtl8126_phc_adjtime, RTL_W32, RTL_W16, Nat.mod_eq_of_lt (adjtime_nsec_lt h d),
    Nat.shiftRight_eq_div_pow, List.append_assoc, List.singleton_append, List.cons_append,
    List.nil_append]

/-- The nanosecond and seconds values of `_rtl8126_phc_adjtime` in closed form. -/
theorem adjtime_values (h : Hdr) (d : Int) (hd0 : -2 ^ 63 < d) (hd1 : d < 2 ^ 63) :
    (0 ≤ d → adjtime_nsec h d = d.natAbs % 10 ^ 9 ∧ adjtime_sec h d = d.natAbs / 10 ^ 9) ∧
    (d < 0 →
      adjtime_nsec h d
        = ((2 ^ 30 - d.natAbs % 10 ^ 9) % 2 ^ 30 ||| h.PTP_SOFT_CONFIG_TIME_NS_NEGATIVE) % 2 ^ 32 ∧
      adjtime_sec h d
        = ((2 ^ 48 - d.natAbs / 10 ^ 9) % 2 ^ 48 ||| h.PTP_SOFT_CONFIG_TIME_S_NEGATIVE) % 2 ^ 64) := by
  have hs := adjtime_split d hd0 hd1
  have hN : d.natAbs % 10 ^ 9 < 10 ^ 9 := Nat.mod_lt _ (by norm_num)
  have hS : d.natAbs / 10 ^ 9 < 2 ^ 34 := by omega
  have uN : u32 ((d.natAbs % 10 ^ 9 : Nat) : Int) = d.natAbs % 10 ^ 9 := by
    rw [u32_of_nonneg _ (by omega) (by omega)]; omega
  have uS : u64 ((d.natAbs / 10 ^ 9 : Nat) : Int) = d.natAbs / 10 ^ 9 := by
    rw [u64_of_nonneg _ (by omega) (by omega)]; omega
  refine ⟨?_, ?_⟩
  · intro h0
    have hneg : ¬ d < 0 := by omega
    rw [if_neg hneg] at hs
    refine ⟨?_, ?_⟩
    · simp only [adjtime_nsec, hs, uN, hneg, decide_False, Bool.false_eq_true, if_false,
        and_mask30]
      omega
    · simp only [adjtime_sec, hs, uS, hneg, decide_False, Bool.false_eq_true, if_false,
        and_mask48]
      omega
  · intro hneg
    have e1 : u32 (-((d.natAbs % 10 ^ 9 : Nat) : Int)) % 2 ^ 30
        = (2 ^ 30 - d.natAbs % 10 ^ 9) % 2 ^ 30 := by
      unfold u32; omega
    have e2 : u64 (-((d.natAbs / 10 ^ 9 : Nat) : Int)) % 2 ^ 48
        = (2 ^ 48 - d.natAbs / 10 ^ 9) % 2 ^ 48 := by
      unfold u64; omega
    rw [if_pos hneg] at hs
    refine ⟨?_, ?_⟩
    · simp only [adjtime_nsec, hs, uN, hneg, decide_True, if_true, and_mask30, e1]
    · simp only [adjtime_sec, hs, uS, hneg, decide_True, if_true, and_mask48, e2]

/-- The events `rtl8126_ptp_tx_hwtstamp` appends, with the delivered
timestamp left unspecified. -/
theorem tx_hwtstamp_trace_shape (h : Hdr) (tp : rtl8126_private) :
    ∃ ts : Int, (rtl8126_ptp_tx_hwtstamp h tp).trace = tp.trace ++
      [Event.W8 h.PTP_ISR_8125 ((h.PTP_ISR_TOK ||| h.PTP_ISR_TER) % 2 ^ 8),
       Event.skb_tstamp_tx tp.ptp_tx_skb ts, Event.dev_kfree_skb_any tp.ptp_tx_skb] := by
  refine ⟨ktime_set
    (rtl8126_ptp_egresstime h (RTL_W8 tp h.PTP_ISR_8125 (h.PTP_ISR_TOK ||| h.PTP_ISR_TER))
      (tx_hwtstamp_regnum
        (RTL_R16 (RTL_W8 tp h.PTP_ISR_8125 (h.PTP_ISR_TOK ||| h.PTP_ISR_TER)) 0x2032))).2.tv_sec
    (rtl8126_ptp_egresstime h (RTL_W8 tp h.PTP_ISR_8125 (h.PTP_ISR_TOK ||| h.PTP_ISR_TER))
      (tx_hwtstamp_regnum
        (RTL_R16 (RTL_W8 tp h.PTP_ISR_8125 (h.PTP_ISR_TOK ||| h.PTP_ISR_TER)) 0x2032))).2.tv_nsec,
    ?_⟩
  simp only [rtl8126_ptp_tx_hwtstamp, RTL_W8, List.append_assoc, List.singleton_append,
    List.cons_append, List.nil_append]

theorem tx_type_switch_val (tx : Int) (htx : tx = HWTSTAMP_TX_ON ∨ tx = HWTSTAMP_TX_OFF) :
    set_tstamp_tx_type tx = some (decide (tx = HWTSTAMP_TX_ON)) := by
  rcases htx with rfl | rfl <;> rfl

theorem rx_filter_switch_val (rx : Int) (b : Bool)
    (hrx : rx = HWTSTAMP_FILTER_NONE ∨ rx ∈ ptp_v2_filters) :
    set_tstamp_rx_filter rx b
      = some (if rx ∈ ptp_v2_filters then HWTSTAMP_FILTER_PTP_V2_EVENT
          else HWTSTAMP_FILTER_NONE, b || decide (rx ∈ ptp_v2_filters)) := by
  by_cases hm : rx ∈ ptp_v2_filters
  · have hm' := (mem_ptp_v2_filters rx).mp hm
    simp only [set_tstamp_rx_filter, hm', hm, if_true, decide_True, Bool.or_true]
  · have hn : rx = HWTSTAMP_FILTER_NONE := hrx.resolve_right hm
    have hm' : ¬ _ := fun x => hm ((mem_ptp_v2_filters rx).mpr x)
    simp only [set_tstamp_rx_filter, hm', hm, if_false, decide_False, Bool.or_false]
    simp [hn]

/-- An accepted request that differs from the stored configuration stores the
coalesced configuration and calls `rtl8126_hwtstamp_enable` with
`hwtstamp = (tx_type = ON or a PTPv2 filter was requested)`. -/
theorem set_tstamp_applies (h : Hdr) (now : timespec64) (tp : rtl8126_private)
    (config : hwtstamp_config) (writable : Bool)
    (hflags : config.flags = 0)
    (htx : config.tx_type = HWTSTAMP_TX_ON ∨ config.tx_type = HWTSTAMP_TX_OFF)
    (hrx : config.rx_filter = HWTSTAMP_FILTER_NONE ∨ config.rx_filter ∈ ptp_v2_filters)
    (hdiff : tp.hwtstamp_config.tx_type ≠ config.tx_type ∨
      tp.hwtstamp_config.rx_filter ≠
        (if config.rx_filter ∈ ptp_v2_filters then HWTSTAMP_FILTER_PTP_V2_EVENT
          else HWTSTAMP_FILTER_NONE)) :
    (rtl8126_set_tstamp h now tp (some config) writable).2.1 =
      (rtl8126_hwtstamp_enable h now
        { tp with hwtstamp_config :=
            { config with rx_filter :=
                if config.rx_filter ∈ ptp_v2_filters then HWTSTAMP_FILTER_PTP_V2_EVENT
                else HWTSTAMP_FILTER_NONE } }
        (decide (config.tx_type = HWTSTAMP_TX_ON) || decide (config.rx_filter ∈ ptp_v2_filters))).2 := by
  simp only [rtl8126_set_tstamp, hflags, ne_eq, not_true_eq_false, if_false,
    tx_type_switch_val _ htx, rx_filter_switch_val _ _ hrx]
  rw [if_pos hdiff]
  cases writable <;> rfl

/-- The eight writes of the enabling path of `rtl8126_hwtstamp_enable`. -/
theorem hwtstamp_enable_on_trace (h : Hdr) (now : timespec64) (tp : rtl8126_private) :
    (rtl8126_hwtstamp_enable h now tp true).2.trace = tp.trace ++
      [Event.W16 h.PTP_CTRL_8125 0,
       Event.W8 h.PTP_ISR_8125 0xff,
       Event.mac_ocp_write 0xDC00 ((rtl8126_mac_ocp_read tp 0xDC00 ||| BIT 6) % 2 ^ 16),
       Event.W16 h.PTP_CTRL_8125 (if tp.ptp_master_mode = true then 0x145B else 0x1459),
       Event.W32 h.PTP_SOFT_CONFIG_Time_NS_8125 ((u64 now.tv_nsec &&& 0x3fffffff) % 2 ^ 32),
       Event.W32 h.PTP_SOFT_CONFIG_Time_S_8125 (u64 now.tv_sec % 2 ^ 32),
       Event.W16 (h.PTP_SOFT_CONFIG_Time_S_8125 + 4) ((u64 now.tv_sec >>> 32) % 2 ^ 16),
       Event.W16 h.PTP_TIME_CORRECT_CMD_8125
         ((h.PTP_CMD_SET_LOCAL_TIME ||| h.PTP_EXEC_CMD) % 2 ^ 16)] := by
  cases hm : tp.ptp_master_mode <;>
    simp [rtl8126_hwtstamp_enable, _rtl8126_phc_settime, RTL_W16, RTL_W8, RTL_W32,
      rtl8126_mac_ocp_write, rtl8126_mac_ocp_read, hm, BIT]

/-- The control register after the enabling path, when the registers written
afterwards are other registers. -/
theorem hwtstamp_enable_on_ctrl (h : Hdr) (now : timespec64) (tp : rtl8126_private)
    (hcn : h.PTP_CTRL_8125 ≠ h.PTP_SOFT_CONFIG_Time_NS_8125)
    (hcs : h.PTP_CTRL_8125 ≠ h.PTP_SOFT_CONFIG_Time_S_8125)
    (hch : h.PTP_CTRL_8125 ≠ h.PTP_SOFT_CONFIG_Time_S_8125 + 4)
    (hcc : h.PTP_CTRL_8125 ≠ h.PTP_TIME_CORRECT_CMD_8125) :
    (rtl8126_hwtstamp_enable h now tp true).2.regs h.PTP_CTRL_8125
      = if tp.ptp_master_mode = true then 0x145B else 0x1459 := by
  cases hm : tp.ptp_master_mode <;>
    simp [rtl8126_hwtstamp_enable, _rtl8126_phc_settime, RTL_W16, RTL_W8, RTL_W32,
      rtl8126_mac_ocp_write, hm, BIT, hcn, hcs, hch, hcc]

theorem enable_bits_testBit (m : Bool) (i : Nat) :
    (if m = true then (0x145B : Nat) else 0x1459).testBit i
      = decide (i ∈ [0, 3, 4, 6, 10, 12] ∨ (i = 1 ∧ m = true)) := by
  by_cases hi : i < 13
  · cases m <;> interval_cases i <;> decide
  · have h1 : (if m = true then (0x145B : Nat) else 0x1459) < 2 ^ i := by
      have : (2 : Nat) ^ 13 ≤ 2 ^ i := Nat.pow_le_pow_right (by norm_num) (by omega)
      cases m <;> simp <;> omega
    rw [Nat.testBit_lt_two_pow h1]
    symm
    rw [decide_eq_false_iff_not]
    simp only [List.mem_cons, List.mem_singleton, List.not_mem_nil, or_false]
    omega

/-! ## Properties -/

/-- C1.  Register round trip: when the nanosecond, seconds-low and
seconds-high registers are distinct from one another and from the command
register, setting a time with `0 ≤ tv_nsec < 2^30` and `0 ≤ tv_sec < 2^48` and
then reading the time back returns exactly that time, and both calls return 0. -/
theorem phc_settime_gettime_roundtrip (h : Hdr) (tp : rtl8126_private) (t : timespec64)
    (hns : h.PTP_SOFT_CONFIG_Time_NS_8125 ≠ h.PTP_SOFT_CONFIG_Time_S_8125)
    (hnh : h.PTP_SOFT_CONFIG_Time_NS_8125 ≠ h.PTP_SOFT_CONFIG_Time_S_8125 + 4)
    (hcn : h.PTP_TIME_CORRECT_CMD_8125 ≠ h.PTP_SOFT_CONFIG_Time_NS_8125)
    (hcs : h.PTP_TIME_CORRECT_CMD_8125 ≠ h.PTP_SOFT_CONFIG_Time_S_8125)
    (hch : h.PTP_TIME_CORRECT_CMD_8125 ≠ h.PTP_SOFT_CONFIG_Time_S_8125 + 4)
    (hn0 : 0 ≤ t.tv_nsec) (hn1 : t.tv_nsec < 2 ^ 30)
    (hs0 : 0 ≤ t.tv_sec) (hs1 : t.tv_sec < 2 ^ 48) :
    (_rtl8126_phc_settime h tp t).1 = 0 ∧
    (_rtl8126_phc_gettime h (_rtl8126_phc_settime h tp t).2).1 = 0 ∧
    (_rtl8126_phc_gettime h (_rtl8126_phc_settime h tp t).2).2.1 = t := by
  obtain ⟨sec, nsec⟩ := t
  simp only at hn0 hn1 hs0 hs1
  obtain ⟨n, rfl⟩ := Int.eq_ofNat_of_zero_le hn0
  obtain ⟨s, rfl⟩ := Int.eq_ofNat_of_zero_le hs0
  have hn : n < 2 ^ 30 := by exact_mod_cast hn1
  have hs : s < 2 ^ 48 := by exact_mod_cast hs1
  have un : u64 (n : Int) = n := by
    rw [u64_of_nonneg _ hn0 (by omega)]; simp
  have us : u64 (s : Int) = s := by
    rw [u64_of_nonneg _ hs0 (by omega)]; simp
  refine ⟨rfl, rfl, ?_⟩
  simp only [_rtl8126_phc_gettime, _rtl8126_phc_settime, RTL_W16, RTL_W32, RTL_R16, RTL_R32,
    un, us, and_mask30, Nat.shiftRight_eq_div_pow]
  have e1 : h.PTP_SOFT_CONFIG_Time_S_8125 ≠ h.PTP_SOFT_CONFIG_Time_S_8125 + 4 := by omega
  have e2 : h.PTP_SOFT_CONFIG_Time_S_8125 + 4 ≠ h.PTP_TIME_CORRECT_CMD_8125 := fun e => hch e.symm
  simp only [hns, hnh, hcn.symm, hcs.symm, e1, e2, if_true, if_false, ite_true, ite_false]
  have k1 : n % 2 ^ 30 % 2 ^ 32 % 2 ^ 32 % 2 ^ 30 = n := by omega
  have k2 : ((s / 2 ^ 32 % 2 ^ 16 % 2 ^ 16) <<< 32) % 2 ^ 64 ||| s % 2 ^ 32 % 2 ^ 32 = s := by
    have hlo : s % 2 ^ 32 % 2 ^ 32 < 2 ^ 32 := Nat.mod_lt _ (by norm_num)
    have hsh : (s / 2 ^ 32 % 2 ^ 16 % 2 ^ 16) <<< 32 < 2 ^ 64 := by
      rw [Nat.shiftLeft_eq]; omega
    rw [Nat.mod_eq_of_lt hsh, shl_or_eq_add _ _ _ hlo]
    omega
  rw [k1, k2, s64_of_lt n (by omega), s64_of_lt s (by omega)]

/-- Witness for C1: the round trip at 100 s + 500000000 ns on the concrete
device. -/
theorem phc_settime_gettime_roundtrip_witness :
    (_rtl8126_phc_gettime r8126_hdr
        (_rtl8126_phc_settime r8126_hdr tp0 { tv_sec := 100, tv_nsec := 500000000 }).2).2.1
      = { tv_sec := 100, tv_nsec := 500000000 } :=
  (phc_settime_gettime_roundtrip r8126_hdr tp0 { tv_sec := 100, tv_nsec := 500000000 }
    (by decide) (by decide) (by decide) (by decide) (by decide)
    (by decide) (by norm_num) (by decide) (by norm_num)).2.2

/-- C2 as stated fails: with `max_adj = 119304647` the request `119304648` is
refused with `-EINVAL` (invalid argument), which is not `-ERANGE` (out of
range). -/
theorem phc_adjfreq_out_of_range_is_einval :
    tp0.max_adj = 119304647 ∧
    (rtl8126_phc_adjfreq r8126_hdr tp0 119304648).1 = -EINVAL ∧
    (rtl8126_phc_adjfreq r8126_hdr tp0 119304648).1 ≠ -ERANGE ∧
    (rtl8126_phc_adjfreq r8126_hdr tp0 (-119304648)).1 ≠ -ERANGE := by
  refine ⟨rfl, ?_, ?_, ?_⟩ <;> simp [rtl8126_phc_adjfreq, tp0, EINVAL, ERANGE]

/-- C2, amended.  With `max_adj = 119304647`, `rtl8126_phc_adjfreq` returns 0
for every `ppb` with `|ppb| ≤ 119304647` (so for -119304647, 0 and 119304647),
and for every `ppb` with `|ppb| > 119304647` it returns `-EINVAL` and leaves
the device, including the trace of register writes, exactly as it was. -/
theorem phc_adjfreq_range_check (h : Hdr) (tp : rtl8126_private)
    (hmax : tp.max_adj = 119304647) :
    (∀ ppb : Int, |ppb| ≤ 119304647 → (rtl8126_phc_adjfreq h tp ppb).1 = 0) ∧
    (rtl8126_phc_adjfreq h tp (-119304647)).1 = 0 ∧
    (rtl8126_phc_adjfreq h tp 0).1 = 0 ∧
    (rtl8126_phc_adjfreq h tp 119304647).1 = 0 ∧
    (∀ ppb : Int, |ppb| > 119304647 →
      (rtl8126_phc_adjfreq h tp ppb).1 = -EINVAL ∧ (rtl8126_phc_adjfreq h tp ppb).2 = tp) := by
  have ok : ∀ ppb : Int, |ppb| ≤ 119304647 → (rtl8126_phc_adjfreq h tp ppb).1 = 0 := by
    intro ppb hp
    have hb := abs_le.mp hp
    have hc : ¬ (ppb > 119304647 ∨ ppb < -119304647) := by omega
    simp only [rtl8126_phc_adjfreq, hmax, hc, if_false]
  refine ⟨ok, ok _ (by norm_num), ok _ (by norm_num), ok _ (by norm_num), ?_⟩
  intro ppb hp
  have hc : ppb > 119304647 ∨ ppb < -119304647 := by
    rcases lt_abs.mp hp with h1 | h1
    · exact Or.inl h1
    · exact Or.inr (by omega)
  simp only [rtl8126_phc_adjfreq, hmax, hc, if_true, and_self]

/-- Witness for C2 (amended) on the concrete device. -/
theorem phc_adjfreq_range_check_witness :
    tp0.max_adj = 119304647 ∧
    (rtl8126_phc_adjfreq r8126_hdr tp0 119304647).1 = 0 ∧
    (rtl8126_phc_adjfreq r8126_hdr tp0 119304648).1 = -EINVAL :=
  ⟨rfl, (phc_adjfreq_range_check r8126_hdr tp0 rfl).2.2.2.1,
    ((phc_adjfreq_range_check r8126_hdr tp0 rfl).2.2.2.2 119304648 (by norm_num)).1⟩

/-- C3.  Ring-slot formula.  For every value `v` read from the write-pointer
status register (in particular every 16-bit one) the slot index is
`(((v & 0x0C00) >> 10) + 3) mod 4`, that is `(p + 3) mod 4` for the 2-bit
pointer `p = v / 2^10 mod 4`; pointers 0, 1, 2, 3 give slots 3, 0, 1, 2; the
index is below 4; two values that agree on bits 10 and 11 give the same index;
and this is the slot whose timestamp `rtl8126_ptp_tx_hwtstamp` hands to the
stack. -/
theorem tx_hwtstamp_ring_slot :
    (∀ v : Nat,
      tx_hwtstamp_regnum v = (((v &&& 0x0C00) >>> 10) + 3) % 4 ∧
      tx_hwtstamp_regnum v = (v / 2 ^ 10 % 4 + 3) % 4 ∧
      tx_hwtstamp_regnum v < 4) ∧
    (tx_hwtstamp_regnum (0 <<< 10) = 3 ∧ tx_hwtstamp_regnum (1 <<< 10) = 0 ∧
      tx_hwtstamp_regnum (2 <<< 10) = 1 ∧ tx_hwtstamp_regnum (3 <<< 10) = 2) ∧
    (∀ v w : Nat, v.testBit 10 = w.testBit 10 → v.testBit 11 = w.testBit 11 →
      tx_hwtstamp_regnum v = tx_hwtstamp_regnum w) ∧
    (∀ (h : Hdr) (tp : rtl8126_private), h.PTP_ISR_8125 ≠ 0x2032 →
      (rtl8126_ptp_tx_hwtstamp h tp).trace =
        tp.trace ++
          [Event.W8 h.PTP_ISR_8125 ((h.PTP_ISR_TOK ||| h.PTP_ISR_TER) % 2 ^ 8),
           Event.skb_tstamp_tx tp.ptp_tx_skb
             (ktime_set
               (rtl8126_ptp_egresstime h tp ((RTL_R16 tp 0x2032 / 2 ^ 10 % 4 + 3) % 4)).2.tv_sec
               (rtl8126_ptp_egresstime h tp ((RTL_R16 tp 0x2032 / 2 ^ 10 % 4 + 3) % 4)).2.tv_nsec),
           Event.dev_kfree_skb_any tp.ptp_tx_skb]) := by
  refine ⟨?_, ⟨by decide, by decide, by decide, by decide⟩, ?_, ?_⟩
  · intro v
    exact ⟨rfl, regnum_eq_div_mod v, Nat.mod_lt _ (by norm_num)⟩
  · intro v w h10 h11
    rw [regnum_eq_div_mod, regnum_eq_div_mod]
    have e10 := Nat.testBit_to_div_mod (x := v) (i := 10)
    have e11 := Nat.testBit_to_div_mod (x := v) (i := 11)
    have f10 := Nat.testBit_to_div_mod (x := w) (i := 10)
    have f11 := Nat.testBit_to_div_mod (x := w) (i := 11)
    rw [h10, f10] at e10
    rw [h11, f11] at e11
    simp only [decide_eq_decide] at e10 e11
    omega
  · intro h tp hisr
    have hr : RTL_R16 (RTL_W8 tp h.PTP_ISR_8125 (h.PTP_ISR_TOK ||| h.PTP_ISR_TER)) 0x2032
        = RTL_R16 tp 0x2032 := by
      simp [RTL_R16, RTL_W8, Ne.symm hisr]
    simp only [rtl8126_ptp_tx_hwtstamp, hr, regnum_eq_div_mod]
    simp [RTL_W8, rtl8126_ptp_egresstime, rtl8126_mac_ocp_read]

/-- Witness for C3: `0x0800` and `0xFBFF` agree on bits 10 and 11 and select
the same slot; on the completed concrete device (pointer 2) the timestamp of
slot 1 is the one handed to the stack. -/
theorem tx_hwtstamp_ring_slot_witness :
    tx_hwtstamp_regnum 0x0800 = tx_hwtstamp_regnum 0xFBFF ∧
    (rtl8126_ptp_tx_hwtstamp r8126_hdr tp_completed).trace =
      [Event.W8 0x6804 6,
       Event.skb_tstamp_tx (some 7)
         (ktime_set (rtl8126_ptp_egresstime r8126_hdr tp_completed 1).2.tv_sec
           (rtl8126_ptp_egresstime r8126_hdr tp_completed 1).2.tv_nsec),
       Event.dev_kfree_skb_any (some 7)] :=
  ⟨tx_hwtstamp_ring_slot.2.2.1 0x0800 0xFBFF (by decide) (by decide),
   tx_hwtstamp_ring_slot.2.2.2 r8126_hdr tp_completed (by decide)⟩

/-- C4.  Timeout scenario.  A poll step on a state holding packet handle
`skb`, run `e` ticks after `ptp_tx_start` with `e` strictly more than the
15-second timeout (and within the half range in which wrapping tick
comparisons are meaningful), ends idle: the handle is cleared and freed exactly
once, the in-progress flag is cleared, the timeout counter grows by exactly 1,
the token-clearing write to the interrupt status register is the only register
write, no timestamp is delivered and the work is not scheduled again.  This
holds whatever the completion token and the in-progress flag were. -/
theorem tx_work_timeout (h : Hdr) (tp : rtl8126_private) (skb e : Nat)
    (hskb : tp.ptp_tx_skb = some skb)
    (hlate : RTL8126_PTP_TX_TIMEOUT h < e) (hwin : e ≤ RTL8126_PTP_TX_TIMEOUT h + 2 ^ 63) :
    (rtl8126_ptp_tx_work h ((tp.ptp_tx_start + e) % 2 ^ 64) tp).ptp_tx_skb = none ∧
    (rtl8126_ptp_tx_work h ((tp.ptp_tx_start + e) % 2 ^ 64) tp).tx_in_progress = false ∧
    (rtl8126_ptp_tx_work h ((tp.ptp_tx_start + e) % 2 ^ 64) tp).tx_hwtstamp_timeouts
      = tp.tx_hwtstamp_timeouts + 1 ∧
    (rtl8126_ptp_tx_work h ((tp.ptp_tx_start + e) % 2 ^ 64) tp).trace
      = tp.trace ++ [Event.dev_kfree_skb_any (some skb),
          Event.W8 h.PTP_ISR_8125 ((h.PTP_ISR_TOK ||| h.PTP_ISR_TER) % 2 ^ 8)] := by
  have ht := time_is_before_jiffies_of_late tp.ptp_tx_start _ e hlate hwin
  simp only [rtl8126_ptp_tx_work, hskb, Option.isNone_some, Bool.false_eq_true, ↓reduceIte, ht]
  simp [RTL_W8]

/-- Witness for C4: the pending device polled 15 s + 1 tick after the start. -/
theorem tx_work_timeout_witness :
    (rtl8126_ptp_tx_work r8126_hdr 16001 tp_pending).ptp_tx_skb = none ∧
    (rtl8126_ptp_tx_work r8126_hdr 16001 tp_pending).tx_in_progress = false ∧
    (rtl8126_ptp_tx_work r8126_hdr 16001 tp_pending).tx_hwtstamp_timeouts = 1 ∧
    (rtl8126_ptp_tx_work r8126_hdr 16001 tp_pending).trace
      = [Event.dev_kfree_skb_any (some 7), Event.W8 0x6804 6] :=
  tx_work_timeout r8126_hdr tp_pending 7 15001 rfl (by decide) (by decide)

/-- C5.  Successful capture.  A poll step on a state holding packet handle
`skb`, run `e` ticks after `ptp_tx_start` with `e` below the 15-second
timeout, with the completion token set in the interrupt status register, reads
ring slot `(p + 3) mod 4` for the pointer `p` in bits 10..11 of register
`0x2032` and hands to the stack the handle together with that slot's time:
seconds assembled from three 16-bit reads and cut to 48 bits, nanoseconds
assembled from two and cut to 30 bits.  The handle is then freed once and
cleared, the in-progress flag is cleared and the timeout counter is unchanged. -/
theorem tx_work_success (h : Hdr) (tp : rtl8126_private) (skb e : Nat)
    (hskb : tp.ptp_tx_skb = some skb)
    (htok : RTL_R8 tp h.PTP_ISR_8125 &&& h.PTP_ISR_TOK ≠ 0)
    (hearly : e < RTL8126_PTP_TX_TIMEOUT h) (hHZ : RTL8126_PTP_TX_TIMEOUT h < 2 ^ 63)
    (hisr : h.PTP_ISR_8125 ≠ 0x2032) :
    (rtl8126_ptp_tx_work h ((tp.ptp_tx_start + e) % 2 ^ 64) tp).ptp_tx_skb = none ∧
    (rtl8126_ptp_tx_work h ((tp.ptp_tx_start + e) % 2 ^ 64) tp).tx_in_progress = false ∧
    (rtl8126_ptp_tx_work h ((tp.ptp_tx_start + e) % 2 ^ 64) tp).tx_hwtstamp_timeouts
      = tp.tx_hwtstamp_timeouts ∧
    (rtl8126_ptp_tx_work h ((tp.ptp_tx_start + e) % 2 ^ 64) tp).trace
      = tp.trace ++
        [Event.W8 h.PTP_ISR_8125 ((h.PTP_ISR_TOK ||| h.PTP_ISR_TER) % 2 ^ 8),
         Event.skb_tstamp_tx (some skb)
           (ktime_set
             (((rtl8126_mac_ocp_read tp (h.PTP_EGRESS_TIME_BASE_S_8125
                    + (RTL_R16 tp 0x2032 / 2 ^ 10 % 4 + 3) % 4 * 16 + 4) * 2 ^ 32
                + rtl8126_mac_ocp_read tp (h.PTP_EGRESS_TIME_BASE_S_8125
                    + (RTL_R16 tp 0x2032 / 2 ^ 10 % 4 + 3) % 4 * 16 + 2) * 2 ^ 16
                + rtl8126_mac_ocp_read tp (h.PTP_EGRESS_TIME_BASE_S_8125
                    + (RTL_R16 tp 0x2032 / 2 ^ 10 % 4 + 3) % 4 * 16)) % 2 ^ 48 : Nat) : Int)
             (((rtl8126_mac_ocp_read tp (h.PTP_EGRESS_TIME_BASE_NS_8125
                    + (RTL_R16 tp 0x2032 / 2 ^ 10 % 4 + 3) % 4 * 16 + 2) * 2 ^ 16
                + rtl8126_mac_ocp_read tp (h.PTP_EGRESS_TIME_BASE_NS_8125
                    + (RTL_R16 tp 0x2032 / 2 ^ 10 % 4 + 3) % 4 * 16)) % 2 ^ 30 : Nat) : Int)),
         Event.dev_kfree_skb_any (some skb)] := by
  have ht := time_is_before_jiffies_of_early tp.ptp_tx_start _ e (le_of_lt hearly) (by omega)
  have hr : RTL_R16 (RTL_W8 tp h.PTP_ISR_8125 (h.PTP_ISR_TOK ||| h.PTP_ISR_TER)) 0x2032
      = RTL_R16 tp 0x2032 := by
    simp [RTL_R16, RTL_W8, Ne.symm hisr]
  have hocp : ∀ a, rtl8126_mac_ocp_read
      (RTL_W8 tp h.PTP_ISR_8125 (h.PTP_ISR_TOK ||| h.PTP_ISR_TER)) a
        = rtl8126_mac_ocp_read tp a := fun _ => rfl
  simp only [rtl8126_ptp_tx_work, hskb, Option.isNone_some, Bool.false_eq_true, ↓reduceIte, ht,
    htok, ne_eq, not_false_eq_true, rtl8126_ptp_tx_hwtstamp, egresstime_eq, hr, hocp,
    regnum_eq_div_mod]
  simp [RTL_W8]

/-- Witness for C5: the completed device polled 1 s after the start; pointer 2
selects slot 1, whose 100 s + 500000000 ns reach the stack as the kernel time
`100 * 10^9 + 500000000`. -/
theorem tx_work_success_witness :
    ktime_set 100 500000000 = 100500000000 ∧
    (rtl8126_ptp_tx_work r8126_hdr 2000 tp_completed).trace
      = [Event.W8 0x6804 6, Event.skb_tstamp_tx (some 7) (ktime_set 100 500000000),
          Event.dev_kfree_skb_any (some 7)] :=
  ⟨by decide,
    (tx_work_success r8126_hdr tp_completed 7 1000 rfl (by decide) (by decide) (by decide)
      (by decide)).2.2.2⟩

/-- C6.  Still waiting.  A poll step on a state holding a packet handle, run
`e` ticks after `ptp_tx_start` with `e` below the 15-second timeout and with
the completion token clear, changes nothing in the driver state or the device
(handle, start time, in-progress flag, timeout counter and registers are as
before), writes no register, frees nothing, and schedules the work again: the
only effect is one `schedule_work` appended to the trace. -/
theorem tx_work_still_waiting (h : Hdr) (tp : rtl8126_private) (skb e : Nat)
    (hskb : tp.ptp_tx_skb = some skb)
    (htok : RTL_R8 tp h.PTP_ISR_8125 &&& h.PTP_ISR_TOK = 0)
    (hearly : e < RTL8126_PTP_TX_TIMEOUT h) (hHZ : RTL8126_PTP_TX_TIMEOUT h < 2 ^ 63) :
    rtl8126_ptp_tx_work h ((tp.ptp_tx_start + e) % 2 ^ 64) tp
      = { tp with trace := tp.trace ++ [Event.schedule_work] } := by
  have ht := time_is_before_jiffies_of_early tp.ptp_tx_start _ e (le_of_lt hearly) (by omega)
  simp only [rtl8126_ptp_tx_work, hskb, Option.isNone_some, Bool.false_eq_true, ↓reduceIte, ht,
    htok, ne_eq, not_true_eq_false]

/-- Witness for C6: the pending device polled 1 s after the start. -/
theorem tx_work_still_waiting_witness :
    rtl8126_ptp_tx_work r8126_hdr 2000 tp_pending
      = { tp_pending with trace := tp_pending.trace ++ [Event.schedule_work] } :=
  tx_work_still_waiting r8126_hdr tp_pending 7 1000 rfl (by decide) (by decide) (by decide)

/-- C7 as stated fails: a request with `flags = 0` and the unsupported
`tx_type` `HWTSTAMP_TX_ONESTEP_SYNC`, and one with `flags = 0`, `tx_type` ON
and the unrecognised `rx_filter` 1 (`HWTSTAMP_FILTER_ALL`), are refused with
`-ERANGE` (out of range) and not with `-EINVAL` (invalid argument). -/
theorem set_tstamp_bad_mode_is_erange :
    (rtl8126_set_tstamp r8126_hdr { tv_sec := 0, tv_nsec := 0 } tp0
      (some { flags := 0, tx_type := HWTSTAMP_TX_ONESTEP_SYNC,
              rx_filter := HWTSTAMP_FILTER_NONE }) true).1 = -ERANGE ∧
    (rtl8126_set_tstamp r8126_hdr { tv_sec := 0, tv_nsec := 0 } tp0
      (some { flags := 0, tx_type := HWTSTAMP_TX_ONESTEP_SYNC,
              rx_filter := HWTSTAMP_FILTER_NONE }) true).1 ≠ -EINVAL ∧
    (rtl8126_set_tstamp r8126_hdr { tv_sec := 0, tv_nsec := 0 } tp0
      (some { flags := 0, tx_type := HWTSTAMP_TX_ON, rx_filter := 1 }) true).1 = -ERANGE ∧
    (rtl8126_set_tstamp r8126_hdr { tv_sec := 0, tv_nsec := 0 } tp0
      (some { flags := 0, tx_type := HWTSTAMP_TX_ON, rx_filter := 1 }) true).1 ≠ -EINVAL := by
  refine ⟨by decide, by decide, by decide, by decide⟩

/-- C7, amended.  For every request read from the caller, `rtl8126_set_tstamp`
fails with `-EINVAL` if `flags` is not 0, and with `-ERANGE` if `flags` is 0
and `tx_type` is neither ON nor OFF, or `flags` is 0, `tx_type` is ON or OFF
and `rx_filter` is neither NONE nor one of the nine PTPv2 variants.  In each of
these cases the driver state, and with it the stored configuration and the
trace of register writes, is exactly as before and nothing is copied back. -/
theorem set_tstamp_validation (h : Hdr) (now : timespec64) (tp : rtl8126_private)
    (config : hwtstamp_config) (writable : Bool) :
    (config.flags ≠ 0 →
      rtl8126_set_tstamp h now tp (some config) writable = (-EINVAL, tp, none)) ∧
    (config.flags = 0 → config.tx_type ≠ HWTSTAMP_TX_ON → config.tx_type ≠ HWTSTAMP_TX_OFF →
      rtl8126_set_tstamp h now tp (some config) writable = (-ERANGE, tp, none)) ∧
    (config.flags = 0 → (config.tx_type = HWTSTAMP_TX_ON ∨ config.tx_type = HWTSTAMP_TX_OFF) →
      config.rx_filter ≠ HWTSTAMP_FILTER_NONE → config.rx_filter ∉ ptp_v2_filters →
      rtl8126_set_tstamp h now tp (some config) writable = (-ERANGE, tp, none)) := by
  refine ⟨?_, ?_, ?_⟩
  · intro hf
    simp only [rtl8126_set_tstamp, ne_eq, hf, not_false_eq_true, if_true]
  · intro hf h1 h2
    simp only [rtl8126_set_tstamp, hf, ne_eq, not_true_eq_false, if_false,
      tx_type_switch_bad _ h1 h2]
  · intro hf htx h1 h2
    obtain ⟨b, hb⟩ := tx_type_switch_ok _ htx
    simp only [rtl8126_set_tstamp, hf, ne_eq, not_true_eq_false, if_false, hb,
      rx_filter_switch_bad _ b h1 h2]

/-- Witness for C7 (amended): non-zero flags, a one-step transmit type and an
unrecognised receive filter on the concrete device. -/
theorem set_tstamp_validation_witness :
    (rtl8126_set_tstamp r8126_hdr { tv_sec := 0, tv_nsec := 0 } tp0
      (some { flags := 1, tx_type := HWTSTAMP_TX_ON, rx_filter := HWTSTAMP_FILTER_NONE }) true).1
        = -EINVAL ∧
    (rtl8126_set_tstamp r8126_hdr { tv_sec := 0, tv_nsec := 0 } tp0
      (some { flags := 0, tx_type := 2, rx_filter := HWTSTAMP_FILTER_NONE }) true).1 = -ERANGE ∧
    (rtl8126_set_tstamp r8126_hdr { tv_sec := 0, tv_nsec := 0 } tp0
      (some { flags := 0, tx_type := HWTSTAMP_TX_ON, rx_filter := 1 }) true).1 = -ERANGE :=
  ⟨congrArg Prod.fst ((set_tstamp_validation r8126_hdr { tv_sec := 0, tv_nsec := 0 } tp0
      { flags := 1, tx_type := HWTSTAMP_TX_ON, rx_filter := HWTSTAMP_FILTER_NONE } true).1
      (by decide)),
   congrArg Prod.fst ((set_tstamp_validation r8126_hdr { tv_sec := 0, tv_nsec := 0 } tp0
      { flags := 0, tx_type := 2, rx_filter := HWTSTAMP_FILTER_NONE } true).2.1
      rfl (by decide) (by decide)),
   congrArg Prod.fst ((set_tstamp_validation r8126_hdr { tv_sec := 0, tv_nsec := 0 } tp0
      { flags := 0, tx_type := HWTSTAMP_TX_ON, rx_filter := 1 } true).2.2
      rfl (Or.inl rfl) (by decide) (by decide))⟩

/-- C8.  Filter coalescing.  For every request with `flags = 0`, `tx_type` ON
or OFF and `rx_filter` NONE or one of the nine PTPv2 variants, when both
transfers succeed `rtl8126_set_tstamp` returns 0 and copies back the requested
`tx_type` with `rx_filter = PTP_V2_EVENT` if a PTPv2 variant was requested and
`rx_filter = NONE` if NONE was requested; afterwards the stored configuration
has the same `tx_type` and `rx_filter` as the record copied back. -/
theorem set_tstamp_coalesces (h : Hdr) (now : timespec64) (tp : rtl8126_private)
    (config : hwtstamp_config)
    (hflags : config.flags = 0)
    (htx : config.tx_type = HWTSTAMP_TX_ON ∨ config.tx_type = HWTSTAMP_TX_OFF)
    (hrx : config.rx_filter = HWTSTAMP_FILTER_NONE ∨ config.rx_filter ∈ ptp_v2_filters) :
    (rtl8126_set_tstamp h now tp (some config) true).1 = 0 ∧
    (rtl8126_set_tstamp h now tp (some config) true).2.2 =
      some { flags := 0, tx_type := config.tx_type,
             rx_filter := if config.rx_filter ∈ ptp_v2_filters
               then HWTSTAMP_FILTER_PTP_V2_EVENT else HWTSTAMP_FILTER_NONE } ∧
    (rtl8126_set_tstamp h now tp (some config) true).2.1.hwtstamp_config.tx_type
      = config.tx_type ∧
    (rtl8126_set_tstamp h now tp (some config) true).2.1.hwtstamp_config.rx_filter
      = (if config.rx_filter ∈ ptp_v2_filters
          then HWTSTAMP_FILTER_PTP_V2_EVENT else HWTSTAMP_FILTER_NONE) := by
  obtain ⟨b, hb⟩ := set_tstamp_accepts h now tp config true hflags htx hrx
  have hs := set_tstamp_stored h now tp config true hflags htx hrx
  refine ⟨?_, ?_, hs.1, hs.2⟩
  · rw [hb]; rfl
  · rw [hb, ← hflags]; rfl

/-- Witness for C8: `(ON, PTP_V2_L4_SYNC)` on the concrete device yields
`(ON, PTP_V2_EVENT)`. -/
theorem set_tstamp_coalesces_witness :
    (rtl8126_set_tstamp r8126_hdr { tv_sec := 0, tv_nsec := 0 } tp0
      (some { flags := 0, tx_type := HWTSTAMP_TX_ON,
              rx_filter := HWTSTAMP_FILTER_PTP_V2_L4_SYNC }) true).2.2 =
      some { flags := 0, tx_type := HWTSTAMP_TX_ON, rx_filter := HWTSTAMP_FILTER_PTP_V2_EVENT } :=
  (set_tstamp_coalesces r8126_hdr { tv_sec := 0, tv_nsec := 0 } tp0
    { flags := 0, tx_type := HWTSTAMP_TX_ON, rx_filter := HWTSTAMP_FILTER_PTP_V2_L4_SYNC }
    rfl (Or.inl rfl) (Or.inr (by decide))).2.1

/-- C9.  Config idempotence.  For every request with `flags = 0`, `tx_type`
ON or OFF and `rx_filter` NONE or one of the nine PTPv2 variants, and every
starting state, a second `rtl8126_set_tstamp` with the same request right after
the first leaves the whole driver state as the first call left it: the stored
configuration is unchanged and the trace gains no register write.  When its
copy back to the caller succeeds the second call returns 0 with the coalesced
configuration, the same record the first call copies back. -/
theorem set_tstamp_idempotent (h : Hdr) (now1 now2 : timespec64) (tp : rtl8126_private)
    (config : hwtstamp_config) (w1 w2 : Bool)
    (hflags : config.flags = 0)
    (htx : config.tx_type = HWTSTAMP_TX_ON ∨ config.tx_type = HWTSTAMP_TX_OFF)
    (hrx : config.rx_filter = HWTSTAMP_FILTER_NONE ∨ config.rx_filter ∈ ptp_v2_filters) :
    (rtl8126_set_tstamp h now2
        (rtl8126_set_tstamp h now1 tp (some config) w1).2.1 (some config) w2).2.1
      = (rtl8126_set_tstamp h now1 tp (some config) w1).2.1 ∧
    (w2 = true →
      (rtl8126_set_tstamp h now2
        (rtl8126_set_tstamp h now1 tp (some config) w1).2.1 (some config) w2).1 = 0 ∧
      (rtl8126_set_tstamp h now2
        (rtl8126_set_tstamp h now1 tp (some config) w1).2.1 (some config) w2).2.2
        = some { flags := 0, tx_type := config.tx_type,
                 rx_filter := if config.rx_filter ∈ ptp_v2_filters
                   then HWTSTAMP_FILTER_PTP_V2_EVENT else HWTSTAMP_FILTER_NONE }) ∧
    (w1 = true → w2 = true →
      (rtl8126_set_tstamp h now2
        (rtl8126_set_tstamp h now1 tp (some config) w1).2.1 (some config) w2).2.2
        = (rtl8126_set_tstamp h now1 tp (some config) w1).2.2) := by
  have hs := set_tstamp_stored h now1 tp config w1 hflags htx hrx
  obtain ⟨b1, hb1⟩ := set_tstamp_accepts h now1 tp config w1 hflags htx hrx
  obtain ⟨b2, hb2⟩ := set_tstamp_accepts h now2
    (rtl8126_set_tstamp h now1 tp (some config) w1).2.1 config w2 hflags htx hrx
  have hc : ¬ ((rtl8126_set_tstamp h now1 tp (some config) w1).2.1.hwtstamp_config.tx_type
        ≠ config.tx_type ∨
      (rtl8126_set_tstamp h now1 tp (some config) w1).2.1.hwtstamp_config.rx_filter
        ≠ (if config.rx_filter ∈ ptp_v2_filters
            then HWTSTAMP_FILTER_PTP_V2_EVENT else HWTSTAMP_FILTER_NONE)) := by
    rw [hs.1, hs.2]; simp
  rw [if_neg hc] at hb2
  refine ⟨?_, ?_, ?_⟩
  · rw [hb2]; cases w2 <;> rfl
  · intro hw
    subst hw
    rw [hb2, ← hflags]
    exact ⟨rfl, rfl⟩
  · intro hw1 hw2
    subst hw1 hw2
    rw [hb2, hb1]
    rfl

/-- Witness for C9: `(ON, PTP_V2_L4_SYNC)` applied twice to the concrete
device; the second call adds nothing to the trace of the first, returns 0 and
copies back `(ON, PTP_V2_EVENT)`. -/
theorem set_tstamp_idempotent_witness :
    (rtl8126_set_tstamp r8126_hdr { tv_sec := 200, tv_nsec := 5 }
        (rtl8126_set_tstamp r8126_hdr { tv_sec := 100, tv_nsec := 7 } tp0
          (some { flags := 0, tx_type := HWTSTAMP_TX_ON,
                  rx_filter := HWTSTAMP_FILTER_PTP_V2_L4_SYNC }) true).2.1
        (some { flags := 0, tx_type := HWTSTAMP_TX_ON,
                rx_filter := HWTSTAMP_FILTER_PTP_V2_L4_SYNC }) true).2.1.trace
      = (rtl8126_set_tstamp r8126_hdr { tv_sec := 100, tv_nsec := 7 } tp0
          (some { flags := 0, tx_type := HWTSTAMP_TX_ON,
                  rx_filter := HWTSTAMP_FILTER_PTP_V2_L4_SYNC }) true).2.1.trace ∧
    (rtl8126_set_tstamp r8126_hdr { tv_sec := 100, tv_nsec := 7 } tp0
          (some { flags := 0, tx_type := HWTSTAMP_TX_ON,
                  rx_filter := HWTSTAMP_FILTER_PTP_V2_L4_SYNC }) true).2.1.trace.length = 8 :=
  ⟨congrArg rtl8126_private.trace
    (set_tstamp_idempotent r8126_hdr { tv_sec := 100, tv_nsec := 7 } { tv_sec := 200, tv_nsec := 5 }
      tp0 { flags := 0, tx_type := HWTSTAMP_TX_ON, rx_filter := HWTSTAMP_FILTER_PTP_V2_L4_SYNC }
      true true rfl (Or.inl rfl) (Or.inr (by decide))).1,
   by decide⟩

/-- C10 as stated fails.  For `d = -2 * 10^9` the nanosecond remainder is 0,
not negative, yet the value written to the nanosecond register carries the
nanosecond negative flag (it is exactly the flag); for `d = -5` the seconds
part is 0, not negative, yet the seconds value carries the seconds negative
flag. -/
theorem adjtime_flags_follow_delta_sign :
    ¬ (adjtime_nsec r8126_hdr (-2000000000) &&& r8126_hdr.PTP_SOFT_CONFIG_TIME_NS_NEGATIVE
          = r8126_hdr.PTP_SOFT_CONFIG_TIME_NS_NEGATIVE ↔
        Int.tmod (-2000000000) 1000000000 < 0) ∧
    ¬ (adjtime_sec r8126_hdr (-5) &&& r8126_hdr.PTP_SOFT_CONFIG_TIME_S_NEGATIVE
          = r8126_hdr.PTP_SOFT_CONFIG_TIME_S_NEGATIVE ↔
        Int.tdiv (-5) 1000000000 < 0) ∧
    Int.tmod (-2000000000) 1000000000 = 0 ∧
    adjtime_nsec r8126_hdr (-2000000000) = r8126_hdr.PTP_SOFT_CONFIG_TIME_NS_NEGATIVE ∧
    (_rtl8126_phc_adjtime r8126_hdr tp0 (-2000000000)).2.trace.head?
      = some (Event.W32 r8126_hdr.PTP_SOFT_CONFIG_Time_NS_8125
          r8126_hdr.PTP_SOFT_CONFIG_TIME_NS_NEGATIVE) := by
  refine ⟨by decide, by decide, by decide, by decide, by decide⟩

/-- C10, amended.  Whenever the two negative flags are non-zero values lying
outside the 30-bit and 48-bit fields (and inside the 32-bit and 64-bit
variables), for every delta `d` the nanosecond value `_rtl8126_phc_adjtime`
writes carries the nanosecond negative flag iff `d < 0`, and the seconds value
it hands to the seconds writes carries the seconds negative flag iff `d < 0`:
both flags follow the sign of the whole delta. -/
theorem adjtime_sign_flags (h : Hdr) (tp : rtl8126_private) (d : Int)
    (hn0 : h.PTP_SOFT_CONFIG_TIME_NS_NEGATIVE ≠ 0)
    (hn1 : h.PTP_SOFT_CONFIG_TIME_NS_NEGATIVE &&& 0x3fffffff = 0)
    (hn2 : h.PTP_SOFT_CONFIG_TIME_NS_NEGATIVE < 2 ^ 32)
    (hs0 : h.PTP_SOFT_CONFIG_TIME_S_NEGATIVE ≠ 0)
    (hs1 : h.PTP_SOFT_CONFIG_TIME_S_NEGATIVE &&& 0x0000ffffffffffff = 0)
    (hs2 : h.PTP_SOFT_CONFIG_TIME_S_NEGATIVE < 2 ^ 64) :
    (_rtl8126_phc_adjtime h tp d).1 = 0 ∧
    (_rtl8126_phc_adjtime h tp d).2.trace = tp.trace ++
      [Event.W32 h.PTP_SOFT_CONFIG_Time_NS_8125 (adjtime_nsec h d),
       Event.W32 h.PTP_SOFT_CONFIG_Time_S_8125 (adjtime_sec h d % 2 ^ 32),
       Event.W16 (h.PTP_SOFT_CONFIG_Time_S_8125 + 4) (adjtime_sec h d / 2 ^ 32 % 2 ^ 16),
       Event.W16 h.PTP_TIME_CORRECT_CMD_8125
         ((h.PTP_CMD_SET_LOCAL_TIME ||| h.PTP_EXEC_CMD) % 2 ^ 16)] ∧
    (adjtime_nsec h d &&& h.PTP_SOFT_CONFIG_TIME_NS_NEGATIVE
        = h.PTP_SOFT_CONFIG_TIME_NS_NEGATIVE ↔ d < 0) ∧
    (adjtime_sec h d &&& h.PTP_SOFT_CONFIG_TIME_S_NEGATIVE
        = h.PTP_SOFT_CONFIG_TIME_S_NEGATIVE ↔ d < 0) := by
  have kn := adjtime_nsec_flag h d hn0 hn1 hn2
  have ks := adjtime_sec_flag h d hs0 hs1 hs2
  refine ⟨rfl, ?_, kn.1, ks.1⟩
  simp only [_rtl8126_phc_adjtime, RTL_W32, RTL_W16, Nat.mod_eq_of_lt kn.2,
    Nat.shiftRight_eq_div_pow, List.append_assoc, List.singleton_append, List.cons_append,
    List.nil_append]

/-- Witness for C10 (amended): `d = -5` with the flags at bits 30 and 48. -/
theorem adjtime_sign_flags_witness :
    adjtime_nsec r8126_hdr (-5) &&& r8126_hdr.PTP_SOFT_CONFIG_TIME_NS_NEGATIVE
        = r8126_hdr.PTP_SOFT_CONFIG_TIME_NS_NEGATIVE ∧
    adjtime_sec r8126_hdr (-5) &&& r8126_hdr.PTP_SOFT_CONFIG_TIME_S_NEGATIVE
        = r8126_hdr.PTP_SOFT_CONFIG_TIME_S_NEGATIVE :=
  ⟨(adjtime_sign_flags r8126_hdr tp0 (-5) (by decide) (by decide) (by decide) (by decide)
      (by decide) (by decide)).2.2.1.mpr (by decide),
   (adjtime_sign_flags r8126_hdr tp0 (-5) (by decide) (by decide) (by decide) (by decide)
      (by decide) (by decide)).2.2.2.mpr (by decide)⟩

/-- C11 as stated fails for negative requests: for `ppb = -1` the value written
to the nanosecond correction register is `0x7FFFFFF7`, the flag with the 30-bit
two's complement of 9, and not `(9 & 0x3fffffff)` with the flag OR'd in. -/
theorem phc_adjfreq_negative_is_complement :
    (_rtl8126_phc_adjfreq r8126_hdr tp0 (-1)).2.trace =
      [Event.W32 r8126_hdr.PTP_SOFT_CONFIG_Time_NS_8125 0x7FFFFFF7,
       Event.W16 r8126_hdr.PTP_TIME_CORRECT_CMD_8125 0x81] ∧
    (0x7FFFFFF7 : Nat) ≠ ((1 * 9) &&& 0x3fffffff) ||| r8126_hdr.PTP_ADJUST_TIME_NS_NEGATIVE := by
  refine ⟨by decide, by decide⟩

/-- C11, amended.  For every `ppb` with `|ppb| ≤ 119304647`,
`_rtl8126_phc_adjfreq` returns 0 and performs exactly two register writes:
first the nanosecond correction register, with `(|ppb| * 9) & 0x3fffffff` when
`ppb ≥ 0` and with `((2^32 - |ppb| * 9) & 0x3fffffff) | flag` when `ppb < 0`,
where the masked two's complement is `2^30 - |ppb| * 9`; then the command
register, with the drift-local-time command.  Every other register, the
seconds registers among them, keeps its value. -/
theorem phc_adjfreq_register_effect (h : Hdr) (tp : rtl8126_private) (ppb : Int)
    (hb : |ppb| ≤ 119304647) :
    (_rtl8126_phc_adjfreq h tp ppb).1 = 0 ∧
    (_rtl8126_phc_adjfreq h tp ppb).2.trace = tp.trace ++
      [Event.W32 h.PTP_SOFT_CONFIG_Time_NS_8125
         (if ppb < 0 then
            (((2 ^ 32 - ppb.natAbs * 9) &&& 0x3fffffff) ||| h.PTP_ADJUST_TIME_NS_NEGATIVE) % 2 ^ 32
          else (ppb.natAbs * 9) &&& 0x3fffffff),
       Event.W16 h.PTP_TIME_CORRECT_CMD_8125
         ((h.PTP_CMD_DRIFT_LOCAL_TIME ||| h.PTP_EXEC_CMD) % 2 ^ 16)] ∧
    (ppb < 0 → (2 ^ 32 - ppb.natAbs * 9) &&& 0x3fffffff = 2 ^ 30 - ppb.natAbs * 9) ∧
    (∀ r : Nat, r ≠ h.PTP_SOFT_CONFIG_Time_NS_8125 → r ≠ h.PTP_TIME_CORRECT_CMD_8125 →
      (_rtl8126_phc_adjfreq h tp ppb).2.regs r = tp.regs r) := by
  have hb2 := abs_le.mp hb
  have hm : ppb.natAbs * 9 < 2 ^ 30 := by omega
  have k1 : ppb < 0 → (2 ^ 32 - ppb.natAbs * 9) &&& 0x3fffffff = 2 ^ 30 - ppb.natAbs * 9 := by
    intro hneg
    rw [and_mask30]
    omega
  have k2 : (ppb.natAbs * 9) &&& 0x3fffffff = ppb.natAbs * 9 := by
    rw [and_mask30, Nat.mod_eq_of_lt hm]
  refine ⟨rfl, ?_, k1, fun r h1 h2 => adjfreq_regs h tp ppb r h1 h2⟩
  rw [adjfreq_trace h tp ppb hb, k2]
  by_cases hneg : ppb < 0
  · simp only [hneg, if_true, k1 hneg]
  · simp only [hneg, if_false]

/-- Witness for C11 (amended): `ppb = -119304647` on the concrete device writes
the flag together with `2^30 - (2^30 - 1) = 1`. -/
theorem phc_adjfreq_register_effect_witness :
    (_rtl8126_phc_adjfreq r8126_hdr tp0 (-119304647)).2.trace =
      [Event.W32 0x6808 (2 ^ 30 + 1), Event.W16 0x6806 0x81] :=
  (phc_adjfreq_register_effect r8126_hdr tp0 (-119304647) (by decide)).2.1

/-- C12.  Receive timestamp decode.  For every receive descriptor with 32-bit
fields, the seconds computed by `rtl8126_rx_ptp_pktstamp` are, as a 64-bit
word, `TimeStampHigh + TimeStampHHigh * 2^32`: the sum has no carry, stays
below `2^64` and equals the bitwise OR of the two parts.  The nanoseconds are
`TimeStampLow`.  Stored in the signed `tv_sec` the seconds are that same number
whenever `TimeStampHHigh < 2^31`.  The timestamp attached to the packet is
`ktime_set` of these two values, and it is the same for any two driver states
and packets: it depends on the three descriptor fields only. -/
theorem rx_ptp_pktstamp_decode (tp tp' : rtl8126_private) (skb skb' : Option Nat)
    (d : RxDescV3)
    (hl : d.TimeStampLow < 2 ^ 32) (hh : d.TimeStampHigh < 2 ^ 32)
    (hhh : d.TimeStampHHigh < 2 ^ 32) :
    u64 (rx_ptp_pktstamp_ts d).tv_sec = d.TimeStampHigh + d.TimeStampHHigh * 2 ^ 32 ∧
    d.TimeStampHigh + d.TimeStampHHigh * 2 ^ 32 = d.TimeStampHigh ||| (d.TimeStampHHigh <<< 32) ∧
    d.TimeStampHigh + d.TimeStampHHigh * 2 ^ 32 < 2 ^ 64 ∧
    (d.TimeStampHHigh < 2 ^ 31 →
      (rx_ptp_pktstamp_ts d).tv_sec = ((d.TimeStampHigh + d.TimeStampHHigh * 2 ^ 32 : Nat) : Int)) ∧
    (rx_ptp_pktstamp_ts d).tv_nsec = (d.TimeStampLow : Int) ∧
    rtl8126_rx_ptp_pktstamp tp skb d
      = ktime_set (rx_ptp_pktstamp_ts d).tv_sec (rx_ptp_pktstamp_ts d).tv_nsec ∧
    rtl8126_rx_ptp_pktstamp tp skb d = rtl8126_rx_ptp_pktstamp tp' skb' d := by
  have e1 : (d.TimeStampHigh % 2 ^ 32 + ((d.TimeStampHHigh % 2 ^ 32) <<< 32) % 2 ^ 64) % 2 ^ 64
      = d.TimeStampHigh + d.TimeStampHHigh * 2 ^ 32 := by
    rw [Nat.shiftLeft_eq]; omega
  have e2 : d.TimeStampHigh + d.TimeStampHHigh * 2 ^ 32
      = d.TimeStampHigh ||| (d.TimeStampHHigh <<< 32) := by
    rw [Nat.or_comm, shl_or_eq_add _ _ _ hh, Nat.add_comm]
  refine ⟨?_, e2, by omega, ?_, ?_, rfl, rfl⟩
  · simp only [rx_ptp_pktstamp_ts, e1, s64, u64]
    split <;> omega
  · intro h31
    simp only [rx_ptp_pktstamp_ts, e1]
    exact s64_of_lt _ (by omega)
  · simp only [rx_ptp_pktstamp_ts]
    rw [Nat.mod_eq_of_lt hl]
    exact s64_of_lt _ (by omega)

/-- Witness for C12: seconds words `0x12345678` and `0x9ABC`, nanoseconds word
`999`. -/
theorem rx_ptp_pktstamp_decode_witness :
    (rx_ptp_pktstamp_ts
        { TimeStampLow := 999, TimeStampHigh := 0x12345678, TimeStampHHigh := 0x9ABC }).tv_sec
      = 0x9ABC12345678 ∧
    (rx_ptp_pktstamp_ts
        { TimeStampLow := 999, TimeStampHigh := 0x12345678, TimeStampHHigh := 0x9ABC }).tv_nsec
      = 999 :=
  ⟨(rx_ptp_pktstamp_decode tp0 tp_pending none (some 7)
      { TimeStampLow := 999, TimeStampHigh := 0x12345678, TimeStampHHigh := 0x9ABC }
      (by decide) (by decide) (by decide)).2.2.2.1 (by decide),
   (rx_ptp_pktstamp_decode tp0 tp_pending none (some 7)
      { TimeStampLow := 999, TimeStampHigh := 0x12345678, TimeStampHHigh := 0x9ABC }
      (by decide) (by decide) (by decide)).2.2.2.2.1⟩

/-- C13.  Egress slot read.  For every slot index `r` (in particular 0..3) and
every content of the indirect register space, `rtl8126_ptp_egresstime` returns
0 with nanoseconds `((n1 << 16) | n0) & 0x3fffffff`, where `n0`, `n1` are the
16-bit reads at `NS_BASE + 16 r` and `NS_BASE + 16 r + 2`, and seconds
`((s2 << 32) | (s1 << 16) | s0) & 0xffffffffffff`, where `s0`, `s1`, `s2` are
the reads at `S_BASE + 16 r`, `+ 2` and `+ 4`; so the nanoseconds lie in
`0 .. 2^30 - 1` and the seconds in `0 .. 2^48 - 1`. -/
theorem ptp_egresstime_read (h : Hdr) (tp : rtl8126_private) (r : Nat) :
    (rtl8126_ptp_egresstime h tp r).1 = 0 ∧
    (rtl8126_ptp_egresstime h tp r).2.tv_nsec =
      (((((rtl8126_mac_ocp_read tp (h.PTP_EGRESS_TIME_BASE_NS_8125 + 16 * r + 2)) <<< 16)
          ||| rtl8126_mac_ocp_read tp (h.PTP_EGRESS_TIME_BASE_NS_8125 + 16 * r))
        &&& 0x3fffffff : Nat) : Int) ∧
    (rtl8126_ptp_egresstime h tp r).2.tv_sec =
      (((((rtl8126_mac_ocp_read tp (h.PTP_EGRESS_TIME_BASE_S_8125 + 16 * r + 4)) <<< 32)
          ||| ((rtl8126_mac_ocp_read tp (h.PTP_EGRESS_TIME_BASE_S_8125 + 16 * r + 2)) <<< 16)
          ||| rtl8126_mac_ocp_read tp (h.PTP_EGRESS_TIME_BASE_S_8125 + 16 * r))
        &&& 0xffffffffffff : Nat) : Int) ∧
    0 ≤ (rtl8126_ptp_egresstime h tp r).2.tv_nsec ∧
    (rtl8126_ptp_egresstime h tp r).2.tv_nsec < 2 ^ 30 ∧
    0 ≤ (rtl8126_ptp_egresstime h tp r).2.tv_sec ∧
    (rtl8126_ptp_egresstime h tp r).2.tv_sec < 2 ^ 48 := by
  have b : ∀ a, rtl8126_mac_ocp_read tp a < 2 ^ 16 := fun a => Nat.mod_lt _ (by norm_num)
  rw [egresstime_eq, Nat.mul_comm 16 r]
  simp only [and_mask30, and_mask48, or3_eq_add _ _ _ (b _) (b _), shl_or_eq_add _ _ 16 (b _)]
  refine ⟨rfl, trivial, trivial, by omega, ?_, by omega, ?_⟩
  · have := Nat.mod_lt ((rtl8126_mac_ocp_read tp (h.PTP_EGRESS_TIME_BASE_NS_8125 + r * 16 + 2)
        * 2 ^ 16 + rtl8126_mac_ocp_read tp (h.PTP_EGRESS_TIME_BASE_NS_8125 + r * 16)))
      (by norm_num : 0 < 2 ^ 30)
    exact_mod_cast this
  · have := Nat.mod_lt ((rtl8126_mac_ocp_read tp (h.PTP_EGRESS_TIME_BASE_S_8125 + r * 16 + 4)
        * 2 ^ 32 + rtl8126_mac_ocp_read tp (h.PTP_EGRESS_TIME_BASE_S_8125 + r * 16 + 2) * 2 ^ 16
        + rtl8126_mac_ocp_read tp (h.PTP_EGRESS_TIME_BASE_S_8125 + r * 16)))
      (by norm_num : 0 < 2 ^ 48)
    exact_mod_cast this

/-- C14.  Pulse-per-second enable.  `rtl8126_phc_enable` returns 0 iff the
request type is PPS; for every other type it returns `-EOPNOTSUPP` and leaves
the device, trace of register writes included, as it was.  For a PPS request
its only register write stores in the PTP control register a 16-bit value
whose bit 15 is clear, whose bit 14 is set iff `on` is non-zero and whose bits
0..13 are those of the value read from that register. -/
theorem phc_enable_pps (h : Hdr) (tp : rtl8126_private) (rq_type on_ : Int) :
    ((rtl8126_phc_enable h tp rq_type on_).1 = 0 ↔ rq_type = PTP_CLK_REQ_PPS) ∧
    (rq_type ≠ PTP_CLK_REQ_PPS →
      rtl8126_phc_enable h tp rq_type on_ = (-EOPNOTSUPP, tp)) ∧
    (rq_type = PTP_CLK_REQ_PPS →
      ∃ v : Nat, v < 2 ^ 16 ∧
        (rtl8126_phc_enable h tp rq_type on_).2.trace
          = tp.trace ++ [Event.W16 h.PTP_CTRL_8125 v] ∧
        (rtl8126_phc_enable h tp rq_type on_).2.regs h.PTP_CTRL_8125 = v ∧
        v.testBit 15 = false ∧
        v.testBit 14 = decide (on_ ≠ 0) ∧
        ∀ i : Nat, i < 14 → v.testBit i = (RTL_R16 tp h.PTP_CTRL_8125).testBit i) := by
  refine ⟨?_, ?_, ?_⟩
  · by_cases hp : rq_type = PTP_CLK_REQ_PPS
    · simp [rtl8126_phc_enable, hp]
    · simp [rtl8126_phc_enable, hp, EOPNOTSUPP]
  · intro hp
    simp only [rtl8126_phc_enable, hp, if_false]
  · intro hp
    have hb := phc_enable_bits (RTL_R16 tp h.PTP_CTRL_8125) on_
    have hlt : (if on_ ≠ 0 then
          ((RTL_R16 tp h.PTP_CTRL_8125 &&& not32 (BIT 15)) % 2 ^ 16 ||| BIT 14) % 2 ^ 16
        else ((RTL_R16 tp h.PTP_CTRL_8125 &&& not32 (BIT 15)) % 2 ^ 16 &&& not32 (BIT 14))
          % 2 ^ 16) < 2 ^ 16 := by
      split <;> exact Nat.mod_lt _ (by norm_num)
    refine ⟨_, hlt, ?_, ?_, ?_, ?_, ?_⟩
    · simp only [rtl8126_phc_enable, hp, if_true, RTL_W16, Nat.mod_eq_of_lt hlt]
    · simp only [rtl8126_phc_enable, hp, if_true, RTL_W16, Nat.mod_eq_of_lt hlt]
    · rw [hb 15 (by norm_num)]; rfl
    · rw [hb 14 (by norm_num)]; rfl
    · intro i hi
      rw [hb i (by omega)]
      have a : i ≠ 15 := by omega
      have b : i ≠ 14 := by omega
      simp only [a, b, if_false]

/-- Witness for C14: a PPS request with `on = 1` on a device whose control
register holds `0xFFFF` stores `0x7FFF`; a periodic-output request is refused. -/
theorem phc_enable_pps_witness :
    (rtl8126_phc_enable r8126_hdr { tp0 with regs := fun _ => 0xFFFF } PTP_CLK_REQ_PPS 1).1 = 0 ∧
    (rtl8126_phc_enable r8126_hdr { tp0 with regs := fun _ => 0xFFFF } PTP_CLK_REQ_PPS 1).2.trace
      = [Event.W16 0x6800 0x7FFF] ∧
    rtl8126_phc_enable r8126_hdr tp0 PTP_CLK_REQ_PEROUT 1 = (-EOPNOTSUPP, tp0) :=
  ⟨(phc_enable_pps r8126_hdr { tp0 with regs := fun _ => 0xFFFF } PTP_CLK_REQ_PPS 1).1.mpr rfl,
   by decide,
   (phc_enable_pps r8126_hdr tp0 PTP_CLK_REQ_PEROUT 1).2.1 (by decide)⟩

/-- C15 as stated fails: on the idle concrete device (stored configuration
`(OFF, NONE)`), the valid request `(ON, NONE)` whose copy back to the caller
faults returns `-EFAULT`, yet the stored configuration has become `(ON, NONE)`
and eight register writes have been made. -/
theorem set_tstamp_fault_after_apply :
    (rtl8126_set_tstamp r8126_hdr { tv_sec := 100, tv_nsec := 7 } tp0
      (some { flags := 0, tx_type := HWTSTAMP_TX_ON, rx_filter := HWTSTAMP_FILTER_NONE })
      false).1 = -EFAULT ∧
    (rtl8126_set_tstamp r8126_hdr { tv_sec := 100, tv_nsec := 7 } tp0
      (some { flags := 0, tx_type := HWTSTAMP_TX_ON, rx_filter := HWTSTAMP_FILTER_NONE })
      false).2.1.hwtstamp_config ≠ tp0.hwtstamp_config ∧
    (rtl8126_set_tstamp r8126_hdr { tv_sec := 100, tv_nsec := 7 } tp0
      (some { flags := 0, tx_type := HWTSTAMP_TX_ON, rx_filter := HWTSTAMP_FILTER_NONE })
      false).2.1.trace.length = 8 ∧
    tp0.trace.length = 0 := by
  refine ⟨by decide, by decide, by decide, by decide⟩

/-- C15, amended.  `rtl8126_set_tstamp` is all-or-nothing for the errors it
detects before applying a request: a fault while reading the request returns
`-EFAULT`, and a request that is read returns `-EINVAL` or `-ERANGE`, only with
the driver state, stored configuration and trace of register writes included,
exactly as before the call.  A fault while copying the effective configuration
back comes after the request has been applied: the call then returns `-EFAULT`
with the state the successful call leaves, and a request that is read returns
`-EFAULT` only in that case. -/
theorem set_tstamp_error_effects (h : Hdr) (now : timespec64) (tp : rtl8126_private)
    (config : hwtstamp_config) (writable : Bool) :
    rtl8126_set_tstamp h now tp none writable = (-EFAULT, tp, none) ∧
    (((rtl8126_set_tstamp h now tp (some config) writable).1 = -EINVAL ∨
        (rtl8126_set_tstamp h now tp (some config) writable).1 = -ERANGE) →
      (rtl8126_set_tstamp h now tp (some config) writable).2.1 = tp) ∧
    (rtl8126_set_tstamp h now tp (some config) false).2.1
      = (rtl8126_set_tstamp h now tp (some config) true).2.1 ∧
    ((rtl8126_set_tstamp h now tp (some config) writable).1 = -EFAULT →
      writable = false ∧ (rtl8126_set_tstamp h now tp (some config) true).1 = 0) := by
  refine ⟨rfl, ?_, ?_, ?_⟩
  · intro hret
    by_cases hf : config.flags = 0
    · cases hA : set_tstamp_tx_type config.tx_type with
      | none => simp only [rtl8126_set_tstamp, hf, ne_eq, not_true_eq_false, if_false, hA]
      | some b =>
        cases hB : set_tstamp_rx_filter config.rx_filter b with
        | none => simp only [rtl8126_set_tstamp, hf, ne_eq, not_true_eq_false, if_false, hA, hB]
        | some p =>
          obtain ⟨rx, b'⟩ := p
          simp only [rtl8126_set_tstamp, hf, ne_eq, not_true_eq_false, if_false, hA, hB] at hret
          cases writable <;> simp [EINVAL, ERANGE, EFAULT] at hret
    · simp only [rtl8126_set_tstamp, ne_eq, hf, not_false_eq_true, if_true]
  · by_cases hf : config.flags = 0
    · cases hA : set_tstamp_tx_type config.tx_type with
      | none => simp only [rtl8126_set_tstamp, hf, ne_eq, not_true_eq_false, if_false, hA]
      | some b =>
        cases hB : set_tstamp_rx_filter config.rx_filter b with
        | none => simp only [rtl8126_set_tstamp, hf, ne_eq, not_true_eq_false, if_false, hA, hB]
        | some p =>
          obtain ⟨rx, b'⟩ := p
          simp only [rtl8126_set_tstamp, hf, ne_eq, not_true_eq_false, if_false, hA, hB]
          rfl
    · simp only [rtl8126_set_tstamp, ne_eq, hf, not_false_eq_true, if_true]
  · intro hret
    by_cases hf : config.flags = 0
    · cases hA : set_tstamp_tx_type config.tx_type with
      | none => simp [rtl8126_set_tstamp, hf, hA, ERANGE, EFAULT] at hret
      | some b =>
        cases hB : set_tstamp_rx_filter config.rx_filter b with
        | none => simp [rtl8126_set_tstamp, hf, hA, hB, ERANGE, EFAULT] at hret
        | some p =>
          obtain ⟨rx, b'⟩ := p
          simp only [rtl8126_set_tstamp, hf, ne_eq, not_true_eq_false, if_false, hA, hB] at hret ⊢
          cases writable
          · exact ⟨rfl, rfl⟩
          · simp [EFAULT] at hret
    · simp [rtl8126_set_tstamp, hf, EINVAL, EFAULT] at hret

/-- Witness for C15 (amended): non-zero flags leave the concrete device
untouched, and the faulting copy back of `(ON, NONE)` leaves the state of the
successful call. -/
theorem set_tstamp_error_effects_witness :
    (rtl8126_set_tstamp r8126_hdr { tv_sec := 100, tv_nsec := 7 } tp_pending
      (some { flags := 4, tx_type := HWTSTAMP_TX_ON, rx_filter := HWTSTAMP_FILTER_NONE })
      true).2.1 = tp_pending ∧
    (rtl8126_set_tstamp r8126_hdr { tv_sec := 100, tv_nsec := 7 } tp0
      (some { flags := 0, tx_type := HWTSTAMP_TX_ON, rx_filter := HWTSTAMP_FILTER_NONE })
      false).2.1
      = (rtl8126_set_tstamp r8126_hdr { tv_sec := 100, tv_nsec := 7 } tp0
          (some { flags := 0, tx_type := HWTSTAMP_TX_ON, rx_filter := HWTSTAMP_FILTER_NONE })
          true).2.1 :=
  ⟨(set_tstamp_error_effects r8126_hdr { tv_sec := 100, tv_nsec := 7 } tp_pending
      { flags := 4, tx_type := HWTSTAMP_TX_ON, rx_filter := HWTSTAMP_FILTER_NONE } true).2.1
      (Or.inl (by decide)),
   (set_tstamp_error_effects r8126_hdr { tv_sec := 100, tv_nsec := 7 } tp0
      { flags := 0, tx_type := HWTSTAMP_TX_ON, rx_filter := HWTSTAMP_FILTER_NONE } true).2.2.1⟩

/-- C16 as stated fails: the pending concrete device (start tick 1000, no
completion token) polled at tick 16000, exactly `HZ * 15` ticks after the
start, keeps its handle and flag, counts no timeout and schedules the work
again. -/
theorem tx_work_at_deadline_reschedules :
    (16000 : Nat) - tp_pending.ptp_tx_start = RTL8126_PTP_TX_TIMEOUT r8126_hdr ∧
    (rtl8126_ptp_tx_work r8126_hdr 16000 tp_pending).ptp_tx_skb = some 7 ∧
    (rtl8126_ptp_tx_work r8126_hdr 16000 tp_pending).tx_in_progress = true ∧
    (rtl8126_ptp_tx_work r8126_hdr 16000 tp_pending).tx_hwtstamp_timeouts = 0 ∧
    (rtl8126_ptp_tx_work r8126_hdr 16000 tp_pending).trace = [Event.schedule_work] := by
  refine ⟨by decide, by decide, by decide, by decide, by decide⟩

/-- C16, amended.  The timeout condition of the poll step is strict,
`now - start_time > timeout`: for a state holding a packet handle, polled `e`
ticks after the start (within the half range of the wrapping tick counter),
the timeout counter is incremented iff `e` exceeds `HZ * 15`.  At exactly
`e = HZ * 15` with no completion token the step schedules itself again and
changes nothing else; at `e = HZ * 15 + 1` it takes the timeout path: handle
freed once and cleared, in-progress flag cleared, timeout counted. -/
theorem tx_work_deadline_strict (h : Hdr) (tp : rtl8126_private) (skb e : Nat)
    (hskb : tp.ptp_tx_skb = some skb)
    (htok : RTL_R8 tp h.PTP_ISR_8125 &&& h.PTP_ISR_TOK = 0)
    (hHZ : RTL8126_PTP_TX_TIMEOUT h < 2 ^ 63)
    (hwin : e ≤ RTL8126_PTP_TX_TIMEOUT h + 2 ^ 63) :
    ((rtl8126_ptp_tx_work h ((tp.ptp_tx_start + e) % 2 ^ 64) tp).tx_hwtstamp_timeouts
        = tp.tx_hwtstamp_timeouts + 1 ↔ RTL8126_PTP_TX_TIMEOUT h < e) ∧
    rtl8126_ptp_tx_work h ((tp.ptp_tx_start + RTL8126_PTP_TX_TIMEOUT h) % 2 ^ 64) tp
      = { tp with trace := tp.trace ++ [Event.schedule_work] } ∧
    (rtl8126_ptp_tx_work h ((tp.ptp_tx_start + (RTL8126_PTP_TX_TIMEOUT h + 1)) % 2 ^ 64)
        tp).ptp_tx_skb = none ∧
    (rtl8126_ptp_tx_work h ((tp.ptp_tx_start + (RTL8126_PTP_TX_TIMEOUT h + 1)) % 2 ^ 64)
        tp).tx_in_progress = false ∧
    (rtl8126_ptp_tx_work h ((tp.ptp_tx_start + (RTL8126_PTP_TX_TIMEOUT h + 1)) % 2 ^ 64)
        tp).tx_hwtstamp_timeouts = tp.tx_hwtstamp_timeouts + 1 ∧
    (rtl8126_ptp_tx_work h ((tp.ptp_tx_start + (RTL8126_PTP_TX_TIMEOUT h + 1)) % 2 ^ 64)
        tp).trace
      = tp.trace ++ [Event.dev_kfree_skb_any (some skb),
          Event.W8 h.PTP_ISR_8125 ((h.PTP_ISR_TOK ||| h.PTP_ISR_TER) % 2 ^ 8)] := by
  have hnext := tx_work_late h tp skb (RTL8126_PTP_TX_TIMEOUT h + 1) hskb (by omega) (by omega)
  refine ⟨?_, ?_, ?_, ?_, ?_, ?_⟩
  · by_cases hl : RTL8126_PTP_TX_TIMEOUT h < e
    · rw [tx_work_late h tp skb e hskb hl hwin]
      simp [RTL_W8, hl]
    · rw [tx_work_on_time h tp skb e hskb (by omega) hHZ]
      simp [htok, hl]
  · rw [tx_work_on_time h tp skb _ hskb (le_refl _) hHZ]
    simp [htok]
  · rw [hnext]; rfl
  · rw [hnext]; rfl
  · rw [hnext]; rfl
  · rw [hnext]; simp [RTL_W8]

/-- Witness for C16 (amended): the pending concrete device polled at the
deadline and one tick later. -/
theorem tx_work_deadline_strict_witness :
    rtl8126_ptp_tx_work r8126_hdr 16000 tp_pending
      = { tp_pending with trace := tp_pending.trace ++ [Event.schedule_work] } ∧
    (rtl8126_ptp_tx_work r8126_hdr 16001 tp_pending).tx_hwtstamp_timeouts = 1 :=
  ⟨(tx_work_deadline_strict r8126_hdr tp_pending 7 15000 rfl (by decide) (by decide)
      (by decide)).2.1,
   (tx_work_deadline_strict r8126_hdr tp_pending 7 15000 rfl (by decide) (by decide)
      (by decide)).2.2.2.2.1⟩

/-- C17 as stated fails: the concrete device whose completion token is set,
polled at tick 16001, one tick after the deadline, delivers nothing: the
handle is freed without `skb_tstamp_tx` and a timeout is counted. -/
theorem tx_work_late_completion_dropped :
    RTL_R8 tp_completed r8126_hdr.PTP_ISR_8125 &&& r8126_hdr.PTP_ISR_TOK ≠ 0 ∧
    (rtl8126_ptp_tx_work r8126_hdr 16001 tp_completed).trace
      = [Event.dev_kfree_skb_any (some 7), Event.W8 0x6804 6] ∧
    (rtl8126_ptp_tx_work r8126_hdr 16001 tp_completed).tx_hwtstamp_timeouts = 1 := by
  refine ⟨by decide, by decide, by decide⟩

/-- C17, amended.  A reported completion is delivered when the poll step runs
no later than the deadline: for every state holding a packet handle with the
completion token set, a step run `e ≤ HZ * 15` ticks after the start reads the
egress slot `(p + 3) mod 4`, hands handle and timestamp to the stack, frees the
handle, clears it and the in-progress flag and counts no timeout.  A step run
after the deadline takes the timeout path although the token is set: the
handle is freed without a timestamp and a timeout is counted. -/
theorem tx_work_completion_delivery (h : Hdr) (tp : rtl8126_private) (skb : Nat)
    (hskb : tp.ptp_tx_skb = some skb)
    (htok : RTL_R8 tp h.PTP_ISR_8125 &&& h.PTP_ISR_TOK ≠ 0)
    (hHZ : RTL8126_PTP_TX_TIMEOUT h < 2 ^ 63)
    (hisr : h.PTP_ISR_8125 ≠ 0x2032) :
    (∀ e : Nat, e ≤ RTL8126_PTP_TX_TIMEOUT h →
      (rtl8126_ptp_tx_work h ((tp.ptp_tx_start + e) % 2 ^ 64) tp).ptp_tx_skb = none ∧
      (rtl8126_ptp_tx_work h ((tp.ptp_tx_start + e) % 2 ^ 64) tp).tx_in_progress = false ∧
      (rtl8126_ptp_tx_work h ((tp.ptp_tx_start + e) % 2 ^ 64) tp).tx_hwtstamp_timeouts
        = tp.tx_hwtstamp_timeouts ∧
      (rtl8126_ptp_tx_work h ((tp.ptp_tx_start + e) % 2 ^ 64) tp).trace =
        tp.trace ++
          [Event.W8 h.PTP_ISR_8125 ((h.PTP_ISR_TOK ||| h.PTP_ISR_TER) % 2 ^ 8),
           Event.skb_tstamp_tx (some skb)
             (ktime_set
               (rtl8126_ptp_egresstime h tp ((RTL_R16 tp 0x2032 / 2 ^ 10 % 4 + 3) % 4)).2.tv_sec
               (rtl8126_ptp_egresstime h tp ((RTL_R16 tp 0x2032 / 2 ^ 10 % 4 + 3) % 4)).2.tv_nsec),
           Event.dev_kfree_skb_any (some skb)]) ∧
    (∀ e : Nat, RTL8126_PTP_TX_TIMEOUT h < e → e ≤ RTL8126_PTP_TX_TIMEOUT h + 2 ^ 63 →
      (rtl8126_ptp_tx_work h ((tp.ptp_tx_start + e) % 2 ^ 64) tp).ptp_tx_skb = none ∧
      (rtl8126_ptp_tx_work h ((tp.ptp_tx_start + e) % 2 ^ 64) tp).tx_in_progress = false ∧
      (rtl8126_ptp_tx_work h ((tp.ptp_tx_start + e) % 2 ^ 64) tp).tx_hwtstamp_timeouts
        = tp.tx_hwtstamp_timeouts + 1 ∧
      (rtl8126_ptp_tx_work h ((tp.ptp_tx_start + e) % 2 ^ 64) tp).trace
        = tp.trace ++ [Event.dev_kfree_skb_any (some skb),
            Event.W8 h.PTP_ISR_8125 ((h.PTP_ISR_TOK ||| h.PTP_ISR_TER) % 2 ^ 8)]) := by
  refine ⟨?_, ?_⟩
  · intro e he
    have k := tx_hwtstamp_effect h tp hisr
    rw [tx_work_on_time h tp skb e hskb he hHZ, if_pos htok]
    rw [hskb] at k
    exact k
  · intro e hl hwin
    rw [tx_work_late h tp skb e hskb hl hwin]
    refine ⟨rfl, rfl, rfl, ?_⟩
    simp [RTL_W8]

/-- Witness for C17 (amended): the completed concrete device polled exactly at
the deadline still delivers; one tick later it does not. -/
theorem tx_work_completion_delivery_witness :
    (rtl8126_ptp_tx_work r8126_hdr 16000 tp_completed).tx_hwtstamp_timeouts = 0 ∧
    (rtl8126_ptp_tx_work r8126_hdr 16001 tp_completed).tx_hwtstamp_timeouts = 1 :=
  ⟨((tx_work_completion_delivery r8126_hdr tp_completed 7 rfl (by decide) (by decide)
      (by decide)).1 15000 (by decide)).2.2.1,
   ((tx_work_completion_delivery r8126_hdr tp_completed 7 rfl (by decide) (by decide)
      (by decide)).2 15001 (by decide) (by decide)).2.2.1⟩

/-- C18 as stated fails: for `d = -5` (`S = 0`, `N = 5`) the low 30 bits of the
nanosecond value are `2^30 - 5`, not 5, while `d = 5` gives 5; for `d = -10^9`
(`S = 1`, `N = 0`) the low 48 bits of the seconds value are `2^48 - 1`, not 1. -/
theorem adjtime_negative_is_complement :
    adjtime_nsec r8126_hdr (-5) % 2 ^ 30 = 2 ^ 30 - 5 ∧
    adjtime_nsec r8126_hdr (-5) % 2 ^ 30 ≠ 5 ∧
    adjtime_nsec r8126_hdr 5 % 2 ^ 30 = 5 ∧
    adjtime_sec r8126_hdr (-1000000000) % 2 ^ 48 = 2 ^ 48 - 1 ∧
    adjtime_sec r8126_hdr (-1000000000) % 2 ^ 48 ≠ 1 ∧
    (_rtl8126_phc_adjtime r8126_hdr tp0 (-1000000000)).2.trace =
      [Event.W32 0x6808 (2 ^ 30), Event.W32 0x680C 0xFFFFFFFF, Event.W16 0x6810 0xFFFF,
       Event.W16 0x6806 0x80] := by
  refine ⟨by decide, by decide, by decide, by decide, by decide, by decide⟩

/-- C18, amended.  For every delta `d` with `-2^63 < d < 2^63`, with
`|d| = S * 10^9 + N`, `0 ≤ N < 10^9`, and negative flags lying outside the 30-bit
and 48-bit fields: when `d ≥ 0` the low 30 bits of the nanosecond value written
by `_rtl8126_phc_adjtime` are `N` and the low 48 bits of the seconds value (the
32-bit low write together with the 16-bit high write) are `S`; when `d < 0`
the fields hold the two's complement of the magnitudes, `(2^30 - N) mod 2^30`
and `(2^48 - S) mod 2^48`, and the flags are OR'd in after the fields have been
masked. -/
theorem adjtime_field_encoding (h : Hdr) (tp : rtl8126_private) (d : Int)
    (hd0 : -2 ^ 63 < d) (hd1 : d < 2 ^ 63)
    (hn1 : h.PTP_SOFT_CONFIG_TIME_NS_NEGATIVE &&& 0x3fffffff = 0)
    (hs1 : h.PTP_SOFT_CONFIG_TIME_S_NEGATIVE &&& 0x0000ffffffffffff = 0) :
    (_rtl8126_phc_adjtime h tp d).2.trace = tp.trace ++
      [Event.W32 h.PTP_SOFT_CONFIG_Time_NS_8125 (adjtime_nsec h d),
       Event.W32 h.PTP_SOFT_CONFIG_Time_S_8125 (adjtime_sec h d % 2 ^ 32),
       Event.W16 (h.PTP_SOFT_CONFIG_Time_S_8125 + 4) (adjtime_sec h d / 2 ^ 32 % 2 ^ 16),
       Event.W16 h.PTP_TIME_CORRECT_CMD_8125
         ((h.PTP_CMD_SET_LOCAL_TIME ||| h.PTP_EXEC_CMD) % 2 ^ 16)] ∧
    adjtime_sec h d % 2 ^ 32 + adjtime_sec h d / 2 ^ 32 % 2 ^ 16 * 2 ^ 32
      = adjtime_sec h d % 2 ^ 48 ∧
    (0 ≤ d →
      adjtime_nsec h d % 2 ^ 30 = d.natAbs % 10 ^ 9 ∧
      adjtime_sec h d % 2 ^ 48 = d.natAbs / 10 ^ 9) ∧
    (d < 0 →
      adjtime_nsec h d % 2 ^ 30 = (2 ^ 30 - d.natAbs % 10 ^ 9) % 2 ^ 30 ∧
      adjtime_sec h d % 2 ^ 48 = (2 ^ 48 - d.natAbs / 10 ^ 9) % 2 ^ 48 ∧
      adjtime_nsec h d
        = ((2 ^ 30 - d.natAbs % 10 ^ 9) % 2 ^ 30 ||| h.PTP_SOFT_CONFIG_TIME_NS_NEGATIVE) % 2 ^ 32 ∧
      adjtime_sec h d
        = ((2 ^ 48 - d.natAbs / 10 ^ 9) % 2 ^ 48 ||| h.PTP_SOFT_CONFIG_TIME_S_NEGATIVE)
            % 2 ^ 64) := by
  have hv := adjtime_values h d hd0 hd1
  rw [and_mask30] at hn1
  rw [and_mask48] at hs1
  refine ⟨adjtime_trace h tp d, by omega, ?_, ?_⟩
  · intro h0
    obtain ⟨a, b⟩ := hv.1 h0
    rw [a, b]
    constructor <;> omega
  · intro hneg
    obtain ⟨a, b⟩ := hv.2 hneg
    refine ⟨?_, ?_, a, b⟩
    · rw [a, Nat.mod_mod_of_dvd _ (by norm_num : 2 ^ 30 ∣ 2 ^ 32), or_flag_mod _ _ _ hn1,
        Nat.mod_mod]
    · rw [b, Nat.mod_mod_of_dvd _ (by norm_num : 2 ^ 48 ∣ 2 ^ 64), or_flag_mod _ _ _ hs1,
        Nat.mod_mod]

/-- Witness for C18 (amended): `d = -1000000005` with the flags at bits 30 and
48. -/
theorem adjtime_field_encoding_witness :
    adjtime_nsec r8126_hdr (-1000000005) % 2 ^ 30 = 2 ^ 30 - 5 ∧
    adjtime_sec r8126_hdr (-1000000005) % 2 ^ 48 = 2 ^ 48 - 1 :=
  ⟨((adjtime_field_encoding r8126_hdr tp0 (-1000000005) (by decide) (by decide) (by decide)
      (by decide)).2.2.2 (by decide)).1,
   ((adjtime_field_encoding r8126_hdr tp0 (-1000000005) (by decide) (by decide) (by decide)
      (by decide)).2.2.2 (by decide)).2.1⟩

/-- C19.  The frequency bound is the capacity of the 30-bit correction field:
for every `ppb` with `|ppb| ≤ 119304647`, `|ppb| * 9 ≤ 2^30 - 1`, so the signed
32-bit product in `_rtl8126_phc_adjfreq` does not wrap, and for `ppb ≥ 0` the
value written to the correction register is exactly `ppb * 9`.  The bound is
the largest one: `119304647 * 9 = 2^30 - 1`, `119304648 * 9 > 2^30 - 1`, and
any `m` with `|ppb| * 9 ≤ 2^30 - 1` for all `|ppb| ≤ m` is at most 119304647. -/
theorem adjfreq_bound_is_field_capacity (h : Hdr) (tp : rtl8126_private) :
    (∀ ppb : Int, |ppb| ≤ 119304647 →
      ppb.natAbs * 9 ≤ 2 ^ 30 - 1 ∧
      s32 (u32 (|ppb| * 9)) = |ppb| * 9 ∧
      (0 ≤ ppb →
        (_rtl8126_phc_adjfreq h tp ppb).2.trace = tp.trace ++
          [Event.W32 h.PTP_SOFT_CONFIG_Time_NS_8125 (ppb.toNat * 9),
           Event.W16 h.PTP_TIME_CORRECT_CMD_8125
             ((h.PTP_CMD_DRIFT_LOCAL_TIME ||| h.PTP_EXEC_CMD) % 2 ^ 16)])) ∧
    119304647 * 9 = 2 ^ 30 - 1 ∧
    119304648 * 9 > 2 ^ 30 - 1 ∧
    (∀ m : Nat, (∀ ppb : Int, |ppb| ≤ (m : Int) → ppb.natAbs * 9 ≤ 2 ^ 30 - 1) →
      m ≤ 119304647) := by
  refine ⟨?_, by norm_num, by norm_num, ?_⟩
  · intro ppb hb
    have hb2 := abs_le.mp hb
    have hm : ppb.natAbs * 9 ≤ 2 ^ 30 - 1 := by omega
    have habs : |ppb| = ((ppb.natAbs : Nat) : Int) := Int.abs_eq_natAbs ppb
    refine ⟨hm, ?_, ?_⟩
    · rw [habs, u32_of_nonneg _ (by omega) (by omega)]
      have e : (((ppb.natAbs : Nat) : Int) * 9).toNat = ppb.natAbs * 9 := by omega
      rw [e, s32_of_lt _ (by omega)]
      push_cast
      rfl
    · intro h0
      have hneg : ¬ ppb < 0 := by omega
      have e : ppb.toNat = ppb.natAbs := by omega
      rw [adjfreq_trace h tp ppb hb, if_neg hneg, e]
  · intro m hm
    by_contra hc
    have hbig := hm 119304648 (by
      rw [abs_of_nonneg (by norm_num)]
      have : (119304648 : Int) ≤ (m : Int) := by omega
      exact this)
    revert hbig
    decide

/-- Witness for C19: the largest request on the concrete device writes
`119304647 * 9 = 2^30 - 1`. -/
theorem adjfreq_bound_is_field_capacity_witness :
    (_rtl8126_phc_adjfreq r8126_hdr tp0 119304647).2.trace =
      [Event.W32 0x6808 (2 ^ 30 - 1), Event.W16 0x6806 0x81] :=
  ((adjfreq_bound_is_field_capacity r8126_hdr tp0).1 119304647 (by decide)).2.2 (by decide)

/-- C20.  Poll-step invariant.  From every state in which the in-progress
flag is set iff a packet handle is stored, for every tick count and every
register content, the state after one `rtl8126_ptp_tx_work` step satisfies the
same relation; the step only appends to the trace, and what it appends
releases a packet once if the state went from holding a handle to holding
none and not at all otherwise; the timeout counter is unchanged or one
larger; and a step run with no handle stored returns the state unchanged, the
trace of register writes included. -/
theorem tx_work_invariant (h : Hdr) (jiffies : Nat) (tp : rtl8126_private)
    (hinv : tp.tx_in_progress = true ↔ tp.ptp_tx_skb.isSome = true) :
    ((rtl8126_ptp_tx_work h jiffies tp).tx_in_progress = true ↔
      (rtl8126_ptp_tx_work h jiffies tp).ptp_tx_skb.isSome = true) ∧
    (∃ evs : List Event,
      (rtl8126_ptp_tx_work h jiffies tp).trace = tp.trace ++ evs ∧
      kfree_count evs =
        if tp.ptp_tx_skb.isSome = true ∧ (rtl8126_ptp_tx_work h jiffies tp).ptp_tx_skb.isNone = true
        then 1 else 0) ∧
    ((rtl8126_ptp_tx_work h jiffies tp).tx_hwtstamp_timeouts = tp.tx_hwtstamp_timeouts ∨
      (rtl8126_ptp_tx_work h jiffies tp).tx_hwtstamp_timeouts = tp.tx_hwtstamp_timeouts + 1) ∧
    (tp.ptp_tx_skb = none → rtl8126_ptp_tx_work h jiffies tp = tp) := by
  rcases hs : tp.ptp_tx_skb with _ | skb
  · have e : rtl8126_ptp_tx_work h jiffies tp = tp := by
      simp only [rtl8126_ptp_tx_work, hs, Option.isNone_none, if_true]
    rw [e, hs]
    rw [hs] at hinv
    exact ⟨hinv, ⟨[], by simp, by simp [kfree_count]⟩, Or.inl rfl, fun _ => rfl⟩
  · by_cases ht : time_is_before_jiffies jiffies
        ((tp.ptp_tx_start + RTL8126_PTP_TX_TIMEOUT h) % 2 ^ 64) = true
    · have e : rtl8126_ptp_tx_work h jiffies tp =
          RTL_W8
            { tp with
              trace := tp.trace ++ [Event.dev_kfree_skb_any (some skb)]
              ptp_tx_skb := none
              tx_in_progress := false
              tx_hwtstamp_timeouts := tp.tx_hwtstamp_timeouts + 1 }
            h.PTP_ISR_8125 (h.PTP_ISR_TOK ||| h.PTP_ISR_TER) := by
        simp only [rtl8126_ptp_tx_work, hs, Option.isNone_some, Bool.false_eq_true, ↓reduceIte,
          ht]
      rw [e]
      refine ⟨by simp [RTL_W8], ⟨[Event.dev_kfree_skb_any (some skb),
        Event.W8 h.PTP_ISR_8125 ((h.PTP_ISR_TOK ||| h.PTP_ISR_TER) % 2 ^ 8)], ?_, ?_⟩,
        Or.inr rfl, fun hc => by simp at hc⟩
      · simp [RTL_W8]
      · simp [RTL_W8, kfree_count]
    · by_cases hk : RTL_R8 tp h.PTP_ISR_8125 &&& h.PTP_ISR_TOK ≠ 0
      · have e : rtl8126_ptp_tx_work h jiffies tp = rtl8126_ptp_tx_hwtstamp h tp := by
          simp only [rtl8126_ptp_tx_work, hs, Option.isNone_some, Bool.false_eq_true,
            ↓reduceIte, ht, hk, ne_eq, not_false_eq_true]
        obtain ⟨ts, hts⟩ := tx_hwtstamp_trace_shape h tp
        rw [e]
        refine ⟨by simp [rtl8126_ptp_tx_hwtstamp], ⟨_, hts, ?_⟩,
          Or.inl rfl, fun hc => by simp at hc⟩
        simp [rtl8126_ptp_tx_hwtstamp, kfree_count]
      · have e : rtl8126_ptp_tx_work h jiffies tp =
            { tp with trace := tp.trace ++ [Event.schedule_work] } := by
          simp only [rtl8126_ptp_tx_work, hs, Option.isNone_some, Bool.false_eq_true,
            ↓reduceIte, ht, hk]
        rw [e]
        rw [hs] at hinv
        refine ⟨by simpa [hs] using hinv, ⟨[Event.schedule_work], rfl, ?_⟩, Or.inl rfl,
          fun hc => by simp at hc⟩
        simp [hs, kfree_count]

/-- Witness for C20: the pending concrete device satisfies the relation and is
polled after the deadline; its handle is released once. -/
theorem tx_work_invariant_witness :
    (tp_pending.tx_in_progress = true ↔ tp_pending.ptp_tx_skb.isSome = true) ∧
    ((rtl8126_ptp_tx_work r8126_hdr 16001 tp_pending).tx_in_progress = true ↔
      (rtl8126_ptp_tx_work r8126_hdr 16001 tp_pending).ptp_tx_skb.isSome = true) ∧
    kfree_count (rtl8126_ptp_tx_work r8126_hdr 16001 tp_pending).trace = 1 :=
  ⟨by decide, (tx_work_invariant r8126_hdr 16001 tp_pending (by decide)).1, by decide⟩

/-- C21.  Hardware enable decision.  When `rtl8126_set_tstamp` accepts a
request whose coalesced `(tx_type, rx_filter)` differs from the stored
configuration (and the control register is none of the registers the clock
write touches), the control register ends non-zero iff `tx_type = ON` or a
PTPv2 filter was requested.  For `(OFF, NONE)` the only register write is 0 to
the control register.  Otherwise the writes are, in order: 0 to the control
register; `0xff` to the interrupt status register; the PTP source bit 6 OR'd
into indirect register `0xDC00`; the control register with exactly the bits
0, 3, 4, 6, 10, 12 and bit 1 iff master mode is set; then the four writes of
`_rtl8126_phc_settime` with the wall-clock time. -/
theorem set_tstamp_enable_decision (h : Hdr) (now : timespec64) (tp : rtl8126_private)
    (config : hwtstamp_config) (writable : Bool)
    (hflags : config.flags = 0)
    (htx : config.tx_type = HWTSTAMP_TX_ON ∨ config.tx_type = HWTSTAMP_TX_OFF)
    (hrx : config.rx_filter = HWTSTAMP_FILTER_NONE ∨ config.rx_filter ∈ ptp_v2_filters)
    (hdiff : tp.hwtstamp_config.tx_type ≠ config.tx_type ∨
      tp.hwtstamp_config.rx_filter ≠
        (if config.rx_filter ∈ ptp_v2_filters then HWTSTAMP_FILTER_PTP_V2_EVENT
          else HWTSTAMP_FILTER_NONE))
    (hcn : h.PTP_CTRL_8125 ≠ h.PTP_SOFT_CONFIG_Time_NS_8125)
    (hcs : h.PTP_CTRL_8125 ≠ h.PTP_SOFT_CONFIG_Time_S_8125)
    (hch : h.PTP_CTRL_8125 ≠ h.PTP_SOFT_CONFIG_Time_S_8125 + 4)
    (hcc : h.PTP_CTRL_8125 ≠ h.PTP_TIME_CORRECT_CMD_8125) :
    ((rtl8126_set_tstamp h now tp (some config) writable).2.1.regs h.PTP_CTRL_8125 ≠ 0 ↔
      (config.tx_type = HWTSTAMP_TX_ON ∨ config.rx_filter ∈ ptp_v2_filters)) ∧
    (config.tx_type = HWTSTAMP_TX_OFF → config.rx_filter = HWTSTAMP_FILTER_NONE →
      (rtl8126_set_tstamp h now tp (some config) writable).2.1.trace
        = tp.trace ++ [Event.W16 h.PTP_CTRL_8125 0] ∧
      (rtl8126_set_tstamp h now tp (some config) writable).2.1.regs h.PTP_CTRL_8125 = 0) ∧
    ((config.tx_type = HWTSTAMP_TX_ON ∨ config.rx_filter ∈ ptp_v2_filters) →
      (rtl8126_set_tstamp h now tp (some config) writable).2.1.trace = tp.trace ++
        [Event.W16 h.PTP_CTRL_8125 0,
         Event.W8 h.PTP_ISR_8125 0xff,
         Event.mac_ocp_write 0xDC00 ((rtl8126_mac_ocp_read tp 0xDC00 ||| BIT 6) % 2 ^ 16),
         Event.W16 h.PTP_CTRL_8125 (if tp.ptp_master_mode = true then 0x145B else 0x1459),
         Event.W32 h.PTP_SOFT_CONFIG_Time_NS_8125 ((u64 now.tv_nsec &&& 0x3fffffff) % 2 ^ 32),
         Event.W32 h.PTP_SOFT_CONFIG_Time_S_8125 (u64 now.tv_sec % 2 ^ 32),
         Event.W16 (h.PTP_SOFT_CONFIG_Time_S_8125 + 4) ((u64 now.tv_sec >>> 32) % 2 ^ 16),
         Event.W16 h.PTP_TIME_CORRECT_CMD_8125
           ((h.PTP_CMD_SET_LOCAL_TIME ||| h.PTP_EXEC_CMD) % 2 ^ 16)] ∧
      (rtl8126_set_tstamp h now tp (some config) writable).2.1.regs h.PTP_CTRL_8125
        = (if tp.ptp_master_mode = true then 0x145B else 0x1459)) ∧
    (∀ i : Nat, (if tp.ptp_master_mode = true then (0x145B : Nat) else 0x1459).testBit i
      = decide (i ∈ [0, 3, 4, 6, 10, 12] ∨ (i = 1 ∧ tp.ptp_master_mode = true))) := by
  have hap := set_tstamp_applies h now tp config writable hflags htx hrx hdiff
  have hoff : config.tx_type = HWTSTAMP_TX_OFF → config.rx_filter = HWTSTAMP_FILTER_NONE →
      (rtl8126_set_tstamp h now tp (some config) writable).2.1.trace
        = tp.trace ++ [Event.W16 h.PTP_CTRL_8125 0] ∧
      (rtl8126_set_tstamp h now tp (some config) writable).2.1.regs h.PTP_CTRL_8125 = 0 := by
    intro h1 h2
    have e : (decide (config.tx_type = HWTSTAMP_TX_ON) || decide (config.rx_filter ∈ ptp_v2_filters))
        = false := by
      rw [h1, h2]; decide
    rw [hap, e]
    simp [rtl8126_hwtstamp_enable, RTL_W16]
  have hon : (config.tx_type = HWTSTAMP_TX_ON ∨ config.rx_filter ∈ ptp_v2_filters) →
      (rtl8126_set_tstamp h now tp (some config) writable).2.1.trace = tp.trace ++
        [Event.W16 h.PTP_CTRL_8125 0,
         Event.W8 h.PTP_ISR_8125 0xff,
         Event.mac_ocp_write 0xDC00 ((rtl8126_mac_ocp_read tp 0xDC00 ||| BIT 6) % 2 ^ 16),
         Event.W16 h.PTP_CTRL_8125 (if tp.ptp_master_mode = true then 0x145B else 0x1459),
         Event.W32 h.PTP_SOFT_CONFIG_Time_NS_8125 ((u64 now.tv_nsec &&& 0x3fffffff) % 2 ^ 32),
         Event.W32 h.PTP_SOFT_CONFIG_Time_S_8125 (u64 now.tv_sec % 2 ^ 32),
         Event.W16 (h.PTP_SOFT_CONFIG_Time_S_8125 + 4) ((u64 now.tv_sec >>> 32) % 2 ^ 16),
         Event.W16 h.PTP_TIME_CORRECT_CMD_8125
           ((h.PTP_CMD_SET_LOCAL_TIME ||| h.PTP_EXEC_CMD) % 2 ^ 16)] ∧
      (rtl8126_set_tstamp h now tp (some config) writable).2.1.regs h.PTP_CTRL_8125
        = (if tp.ptp_master_mode = true then 0x145B else 0x1459) := by
    intro hen
    have e : (decide (config.tx_type = HWTSTAMP_TX_ON) || decide (config.rx_filter ∈ ptp_v2_filters))
        = true := by
      rcases hen with h1 | h2
      · simp [h1]
      · simp [h2]
    rw [hap, e]
    exact ⟨hwtstamp_enable_on_trace h now _, hwtstamp_enable_on_ctrl h now _ hcn hcs hch hcc⟩
  refine ⟨?_, hoff, hon, fun i => enable_bits_testBit tp.ptp_master_mode i⟩
  by_cases hen : config.tx_type = HWTSTAMP_TX_ON ∨ config.rx_filter ∈ ptp_v2_filters
  · rw [(hon hen).2]
    simp only [hen, iff_true]
    cases tp.ptp_master_mode <;> decide
  · have h1 : config.tx_type = HWTSTAMP_TX_OFF := htx.resolve_left (fun x => hen (Or.inl x))
    have h2 : config.rx_filter = HWTSTAMP_FILTER_NONE := hrx.resolve_right (fun x => hen (Or.inr x))
    rw [(hoff h1 h2).2]
    simp only [hen, iff_false, ne_eq, not_true_eq_false, not_false_eq_true]

/-- Witness for C21: on the idle concrete device the request `(OFF, PTP_V2_SYNC)`
at wall-clock time 100 s + 7 ns enables the hardware with the eight writes; on
a device storing `(ON, PTP_V2_EVENT)` the request `(OFF, NONE)` writes only 0
to the control register. -/
theorem set_tstamp_enable_decision_witness :
    (rtl8126_set_tstamp r8126_hdr { tv_sec := 100, tv_nsec := 7 } tp0
      (some { flags := 0, tx_type := HWTSTAMP_TX_OFF,
              rx_filter := HWTSTAMP_FILTER_PTP_V2_SYNC }) true).2.1.trace =
      [Event.W16 0x6800 0, Event.W8 0x6804 0xff, Event.mac_ocp_write 0xDC00 0x40,
       Event.W16 0x6800 0x1459, Event.W32 0x6808 7, Event.W32 0x680C 100,
       Event.W16 0x6810 0, Event.W16 0x6806 0x80] ∧
    (rtl8126_set_tstamp r8126_hdr { tv_sec := 100, tv_nsec := 7 }
      { tp0 with hwtstamp_config :=
          { flags := 0, tx_type := HWTSTAMP_TX_ON, rx_filter := HWTSTAMP_FILTER_PTP_V2_EVENT } }
      (some { flags := 0, tx_type := HWTSTAMP_TX_OFF, rx_filter := HWTSTAMP_FILTER_NONE })
      true).2.1.trace = [Event.W16 0x6800 0] :=
  ⟨((set_tstamp_enable_decision r8126_hdr { tv_sec := 100, tv_nsec := 7 } tp0
      { flags := 0, tx_type := HWTSTAMP_TX_OFF, rx_filter := HWTSTAMP_FILTER_PTP_V2_SYNC } true
      rfl (Or.inr rfl) (Or.inr (by decide)) (Or.inr (by decide))
      (by decide) (by decide) (by decide) (by decide)).2.2.1 (Or.inr (by decide))).1,
   ((set_tstamp_enable_decision r8126_hdr { tv_sec := 100, tv_nsec := 7 }
      { tp0 with hwtstamp_config :=
          { flags := 0, tx_type := HWTSTAMP_TX_ON, rx_filter := HWTSTAMP_FILTER_PTP_V2_EVENT } }
      { flags := 0, tx_type := HWTSTAMP_TX_OFF, rx_filter := HWTSTAMP_FILTER_NONE } true
      rfl (Or.inr rfl) (Or.inl rfl) (Or.inl (by decide))
      (by decide) (by decide) (by decide) (by decide)).2.1 rfl rfl).1⟩

end R8126
